import Mathlib

/-!
Verification of the Aritech ATS panel client library (ACE 2 / v6 protocol).

This file gives a shallow embedding, in Lean, of the byte-level codecs
(`crc16`, SLIP framing, key derivation, AES-CTR record layer), of the
message-template engine (`constructMessage` / `getProperty` over the
`messageTemplates` table), of the batch-response splitter, and of the parts of
the client state machine relevant to frame routing, control-session cleanup and
the arm polling loop.  Buffers are `List Nat` with every element a byte
(`< 256`); JavaScript 32-bit bitwise arithmetic (`|`, `&`, `<<`, `>>`, `~`,
which operate on the two's-complement 32-bit truncation of the operands) is
modelled by the `js*` helpers below.  The AES block primitive comes from the
crypto library, outside this repository, so functions that use it are
parameterised over an arbitrary block function `aesBlock`.
-/

namespace Aritech

/-! ## JavaScript 32-bit bitwise arithmetic -/

/-- Truncate an integer to an unsigned 32-bit value (JavaScript `ToUint32`). -/
def jsToUint32 (n : Int) : Nat := (n % 4294967296).toNat

/-- Truncate an integer to a signed 32-bit value (JavaScript `ToInt32`). -/
def jsToInt32 (n : Int) : Int := (n + 2147483648) % 4294967296 - 2147483648

/-- JavaScript bitwise and `a & b`. -/
def jsAnd (a b : Int) : Int := jsToInt32 ((Nat.land (jsToUint32 a) (jsToUint32 b) : Nat) : Int)

/-- JavaScript bitwise or `a | b`. -/
def jsOr (a b : Int) : Int := jsToInt32 ((Nat.lor (jsToUint32 a) (jsToUint32 b) : Nat) : Int)

/-- JavaScript bitwise not `~a` (complement within 32 bits). -/
def jsNot (a : Int) : Int := jsToInt32 ((Nat.xor (jsToUint32 a) 4294967295 : Nat) : Int)

/-- JavaScript left shift `a << sh` (shift count taken modulo 32). -/
def jsShl (a : Int) (sh : Nat) : Int := jsToInt32 (jsToInt32 a * 2 ^ (sh % 32))

/-- JavaScript arithmetic right shift `a >> sh` (shift count taken modulo 32,
rounding toward negative infinity). -/
def jsShr (a : Int) (sh : Nat) : Int := (jsToInt32 a).fdiv (2 ^ (sh % 32))

/-! ## CRC-16 (polynomial 0xA001, init 0xFFFF, result stored big-endian) -/

/-- One iteration of the CRC inner loop: shift right, conditionally xor the
polynomial (`crc & 1` test, `crc >>> 1`, `^ 0xA001`). -/
def crcBitStep (crc : Nat) : Nat :=
  if crc % 2 = 1 then (crc / 2) ^^^ 0xA001 else crc / 2

/-- Process one input byte: xor into the state, then eight bit iterations. -/
def crcByteStep (crc b : Nat) : Nat := crcBitStep^[8] (crc ^^^ b)

/-- `crc16(data)`: CRC-16 of a whole buffer (the source's `offset`/`length`
parameters default to the whole buffer, which is how every call site in the
embedded claims uses it). -/
def crc16 (data : List Nat) : Nat := data.foldl crcByteStep 0xFFFF

/-- `appendCrc(data)`: append the CRC-16 big-endian. -/
def appendCrc (data : List Nat) : List Nat :=
  data ++ [(crc16 data >>> 8) &&& 0xFF, crc16 data &&& 0xFF]

/-- `verifyCrc(data)`: false for buffers shorter than 3 bytes, else compare the
stored big-endian CRC tail with the CRC of the rest. -/
def verifyCrc (data : List Nat) : Bool :=
  if data.length < 3 then false
  else
    let payload := data.take (data.length - 2)
    let frameCrc := ((data.getD (data.length - 2) 0) <<< 8) ||| data.getD (data.length - 1) 0
    frameCrc == crc16 payload

/-! ## SLIP framing -/

def SLIP_END : Nat := 0xC0
def SLIP_ESC : Nat := 0xDB
def SLIP_ESC_END : Nat := 0xDC
def SLIP_ESC_ESC : Nat := 0xDD

/-- The escaped body produced by `slipEncode`'s loop. -/
def slipEncodeBody (data : List Nat) : List Nat :=
  data.flatMap fun b =>
    if b = SLIP_END then [SLIP_ESC, SLIP_ESC_END]
    else if b = SLIP_ESC then [SLIP_ESC, SLIP_ESC_ESC]
    else [b]

/-- `slipEncode(data)`: END marker, escaped body, END marker. -/
def slipEncode (data : List Nat) : List Nat :=
  SLIP_END :: slipEncodeBody data ++ [SLIP_END]

/-- The `while` loop of `slipDecode`: stop at an END byte, unescape ESC pairs
(an ESC as the very last byte is emitted as-is, matching the `i + 1 < length`
guard; an unknown escape emits the second byte unchanged). -/
def slipDecodeLoop : List Nat → List Nat
  | [] => []
  | b :: rest =>
    if b = SLIP_END then []
    else if b = SLIP_ESC then
      match rest with
      | [] => [b]
      | c :: rest2 =>
        (if c = SLIP_ESC_END then SLIP_END
         else if c = SLIP_ESC_ESC then SLIP_ESC
         else c) :: slipDecodeLoop rest2
    else b :: slipDecodeLoop rest

/-- `slipDecode(data)`: skip one leading END byte, then decode until the next
END byte. -/
def slipDecode (data : List Nat) : List Nat :=
  match data with
  | [] => []
  | b :: rest => if b = SLIP_END then slipDecodeLoop rest else slipDecodeLoop (b :: rest)

/-! ## Encryption key derivation (password → AES key) -/

/-- `grayPack(value)`: Gray-code then pack selected bit groups. -/
def grayPack (value : Nat) : Nat :=
  let num := value ^^^ (value >>> 1)
  ((num &&& 0x600) >>> 3) ||| ((num &&& 0xC0) >>> 2) ||| ((num &&& 0x18) >>> 1) ||| (num &&& 3)

/-- The eight key bytes derived from one twelve-character password part
(`Buffer.from(part, 'ascii')` encodes each character as its code point
truncated to a byte). -/
def keyPartBytes (chars : List Nat) : List Nat :=
  let c := fun i => chars.getD i 0
  [grayPack ((c 0 <<< 4) ||| (c 1 >>> 4)), grayPack (((c 1 &&& 0xF) <<< 8) ||| c 2),
   grayPack ((c 3 <<< 4) ||| (c 4 >>> 4)), grayPack (((c 4 &&& 0xF) <<< 8) ||| c 5),
   grayPack ((c 6 <<< 4) ||| (c 7 >>> 4)), grayPack (((c 7 &&& 0xF) <<< 8) ||| c 8),
   grayPack ((c 9 <<< 4) ||| (c 10 >>> 4)), grayPack (((c 10 &&& 0xF) <<< 8) ||| c 11)]

/-- `makeEncryptionKey(password)`: passwords shorter than 24 characters yield 16
zero bytes; otherwise `min(⌊len/12⌋, 4)` twelve-character parts each contribute
eight `grayPack`ed bytes. -/
def makeEncryptionKey (password : String) : List Nat :=
  if password.length < 24 then List.replicate 16 0
  else
    let numParts := min (password.length / 12) 4
    (List.range numParts).flatMap fun partIndex =>
      keyPartBytes (((password.toList.drop (partIndex * 12)).take 12).map (fun ch => ch.toNat % 256))

/-! ## AES-CTR record layer

The AES-ECB single-block primitive (`crypto.createCipheriv(...).update(iv)`) is
library code outside this repository; every function below takes it as an
explicit argument `aesBlock : key → block → keystream`.  The real primitive
always returns 16 bytes; theorems assume that where needed. -/

/-- Increment the big-endian counter from the last byte with carry
(`iv[i] = (iv[i] + 1) & 0xFF`, stop at the first byte that did not wrap),
expressed on the reversed list. -/
def incIvRev : List Nat → List Nat
  | [] => []
  | b :: rest =>
    let b2 := (b + 1) % 256
    if b2 = 0 then b2 :: incIvRev rest else b2 :: rest

/-- Increment the 16-byte counter block as one big-endian integer. -/
def incIv (iv : List Nat) : List Nat := (incIvRev iv.reverse).reverse

/-- The per-block loop of `aesCtr`: generate a keystream block from the current
counter, xor it onto the next (up to) 16 data bytes (`Buffer` writes truncate
to a byte), and recurse on the rest with the incremented counter. -/
def aesCtrGo (aesBlock : List Nat → List Nat → List Nat) (key : List Nat) :
    List Nat → List Nat → List Nat
  | _, [] => []
  | iv, d :: data =>
    let keystream := aesBlock key iv
    ((d :: data).take 16).zipWith (fun x k => (x ^^^ k) % 256) keystream ++
      aesCtrGo aesBlock key (incIv iv) ((d :: data).drop 16)
  termination_by _ data => data.length
  decreasing_by simp only [List.drop, List.length_drop, List.length_cons]; omega

/-- Whether `getAesCipherName` accepts the key size (16, 24 or 32 bytes);
anything else throws. -/
def validAesKeySize (keySize : Nat) : Prop := keySize = 16 ∨ keySize = 24 ∨ keySize = 32

instance : DecidablePred validAesKeySize := fun _ => by unfold validAesKeySize; infer_instance

/-- `aesCtr(data, key, nonce, serialBytes)`: build the IV as
`nonce(8) ‖ serial(6) ‖ 00 00` (short inputs leave the zero padding from
`Buffer.alloc`), pick the cipher by key size (an invalid size throws), and run
the counter-mode keystream xor. -/
def aesCtr (aesBlock : List Nat → List Nat → List Nat)
    (data key nonce serialBytes : List Nat) : Except String (List Nat) :=
  if validAesKeySize key.length then
    let iv := (nonce.take 8 ++ List.replicate (8 - nonce.length) 0) ++
              (serialBytes.take 6 ++ List.replicate (6 - serialBytes.length) 0) ++ [0, 0]
    .ok (aesCtrGo aesBlock key iv data)
  else .error "Invalid AES key size"

/-- `decryptMessage(frame, key, serialBytes)`: SLIP-decode, require more than 10
bytes, split off the 8-byte nonce, decrypt, verify the CRC and strip it.  The
source returns `null` on a short frame or a bad CRC; a key-size exception from
`aesCtr` is folded into `none` here as well (its only caller below wraps the
call in `try`/`catch` and treats both identically). -/
def decryptMessage (aesBlock : List Nat → List Nat → List Nat)
    (frame key serialBytes : List Nat) : Option (List Nat) :=
  let decoded := slipDecode frame
  if decoded.length ≤ 10 then none
  else
    match aesCtr aesBlock (decoded.drop 8) key (decoded.take 8) serialBytes with
    | .error _ => none
    | .ok decrypted =>
      if verifyCrc decrypted then some (decrypted.take (decrypted.length - 2)) else none

/-! ## Message template engine

A template lists message-id bytes, fixed template bytes and a named field
table; each field is a list of DRV entries `{byte, mask, length?, type?}`.
JavaScript property values are modelled by `JsValue`; extracted values by
`PropValue`. -/

/-- A value supplied to `constructMessage`: a number, a boolean, a string, or a
`Buffer`/byte-array. -/
inductive JsValue where
  | num (n : Int)
  | bool (b : Bool)
  | str (s : String)
  | bytes (l : List Nat)
deriving Repr, DecidableEq

/-- `Number(value) || 0` as used on the numeric write paths: numbers pass
through, booleans become 0/1, buffers are NaN hence 0, and strings evaluate to
their numeric value when they are plain decimal numerals (any other string this
client never passes is NaN hence 0). -/
def jsToNumber : JsValue → Int
  | .num n => n
  | .bool b => if b then 1 else 0
  | .str s => (s.toNat?.map (fun n => (n : Int))).getD 0
  | .bytes _ => 0

/-- JavaScript truthiness of a property value. -/
def jsTruthy : JsValue → Bool
  | .num n => n != 0
  | .bool b => b
  | .str s => s != ""
  | .bytes _ => true

/-- One `{byte, mask, length?, type?}` entry of a DRV field definition. -/
structure PropEntry where
  byte : Int
  mask : Nat
  length : Option Nat := none
  type : Option String := none
deriving Repr, DecidableEq

/-- One entry of the `messageTemplates` table. -/
structure MessageTemplate where
  msgId : Int
  msgIdBytes : List Nat
  templateBytes : List Nat
  payloadLength : Nat
  properties : List (String × List PropEntry)
deriving Repr, DecidableEq

/-- The `{ bool: 1, byte: 1, short: 2, int: 4 }` lookup (absent keys are
`undefined`, i.e. falsy). -/
def typeByteCount : String → Option Nat
  | "bool" => some 1
  | "byte" => some 1
  | "short" => some 2
  | "int" => some 4
  | _ => none

/-- `writeVarint(buffer, offset, value, maxLength)`: write the value as
little-endian bytes (`(value >> (i*8)) & 0xFF`), stopping at the end of the
buffer. -/
def writeVarint (buffer : List Nat) (offset : Nat) (value : Int) (maxLength : Nat) : List Nat :=
  (List.range maxLength).foldl
    (fun buf i =>
      if offset + i < buffer.length then
        buf.set (offset + i) (jsToUint32 (jsAnd (jsShr value (i * 8)) 0xFF))
      else buf)
    buffer

/-- `readVarint(buffer, offset, length)`: assemble `value |= buffer[offset+i]
<< (i*8)` over the in-range bytes. -/
def readVarint (buffer : List Nat) (offset len : Nat) : Int :=
  (List.range len).foldl
    (fun value i =>
      if offset + i < buffer.length then
        jsOr value (jsShl ((buffer.getD (offset + i) 0 : Nat) : Int) (i * 8))
      else value)
    0

/-- `Buffer.from(s, 'ascii')`: each character code truncated to a byte. -/
def asciiBytes (s : String) : List Nat := s.toList.map (fun ch => ch.toNat % 256)

/-- The multi-byte write path of `constructMessage` (all-0xFF multi-entry
fields): write the value little-endian, one byte per entry, shifting only after
an in-range write. -/
def multiByteWrite (buffer : List Nat) (pd : List PropEntry) (value : Int) : List Nat :=
  (pd.foldl
    (fun (st : List Nat × Int) e =>
      let bufferIndex := e.byte + 1
      if 0 ≤ bufferIndex ∧ bufferIndex < (st.1.length : Int) then
        (st.1.set bufferIndex.toNat (jsToUint32 (jsAnd st.2 0xFF)), jsShr st.2 8)
      else st)
    (buffer, value)).1

/-- The `mask === 0xFF` numeric write (type hint, else explicit length, else
two bytes) and the bitmask set/clear write. -/
def numericOrBitmaskWrite (buffer : List Nat) (idx : Nat) (e : PropEntry) (value : JsValue) :
    List Nat :=
  if e.mask = 0xFF then
    let numValue := jsToNumber value
    match e.type.bind typeByteCount with
    | some bc => writeVarint buffer idx numValue bc
    | none =>
      match e.length with
      | some l => if 1 < l then writeVarint buffer idx numValue l else writeVarint buffer idx numValue 2
      | none => writeVarint buffer idx numValue 2
  else
    if jsTruthy value then buffer.set idx ((buffer.getD idx 0) ||| e.mask)
    else buffer.set idx (jsToUint32 (jsAnd ((buffer.getD idx 0 : Nat) : Int) (jsNot ((e.mask : Nat) : Int))))

/-- The per-entry body of `constructMessage`'s property loop: skip out-of-range
offsets, then branch on buffer values, length-prefixed strings, fixed-length
strings, and finally numeric/bitmask writes. -/
def writeEntry (buffer : List Nat) (e : PropEntry) (value : JsValue) : List Nat :=
  let bufferIndex := e.byte + 1
  if bufferIndex < 0 ∨ (buffer.length : Int) ≤ bufferIndex then buffer
  else
    let idx := bufferIndex.toNat
    match value with
    | .bytes l =>
      let maxLen := e.length.getD l.length
      (List.range maxLen).foldl
        (fun buf i =>
          if idx + i < buffer.length then
            buf.set (idx + i) (if i < l.length then l.getD i 0 else 0)
          else buf)
        buffer
    | .str s =>
      if e.type = some "string" then
        let maxLen := e.length.getD 16
        let strBytes := asciiBytes s
        let buf1 := buffer.set idx (min strBytes.length maxLen)
        (List.range maxLen).foldl
          (fun buf i =>
            if idx + 1 + i < buffer.length then
              buf.set (idx + 1 + i) (if i < strBytes.length then strBytes.getD i 0 else 0)
            else buf)
          buf1
      else if e.length.getD 0 ≠ 0 then
        let strBytes := asciiBytes s
        (List.range (e.length.getD 0)).foldl
          (fun buf i =>
            if idx + i < buffer.length then
              buf.set (idx + i) (if i < strBytes.length then strBytes.getD i 0 else 0)
            else buf)
          buffer
      else numericOrBitmaskWrite buffer idx e value
    | _ => numericOrBitmaskWrite buffer idx e value

/-- Length of the buffer `constructMessage` allocates. -/
def bufLen (t : MessageTemplate) : Nat := 1 + t.msgIdBytes.length + t.templateBytes.length

/-- The freshly allocated buffer: header `0xC0`, message-id bytes, template
default bytes. -/
def initialBuffer (t : MessageTemplate) : List Nat := 0xC0 :: t.msgIdBytes ++ t.templateBytes

/-- Apply one provided property: unknown names only warn; all-0xFF multi-entry
definitions take the little-endian multi-byte path; otherwise each entry is
written by `writeEntry`. -/
def applyProperty (t : MessageTemplate) (buffer : List Nat) (propName : String) (value : JsValue) :
    List Nat :=
  match List.lookup propName t.properties with
  | none => buffer
  | some propDef =>
    if 1 < propDef.length ∧ propDef.all (fun p => p.mask = 0xFF) then
      multiByteWrite buffer propDef (jsToNumber value)
    else
      propDef.foldl (fun buf e => writeEntry buf e value) buffer

/-- `constructMessage(templates, msgName, properties)`. -/
def constructMessage (templates : List (String × MessageTemplate)) (msgName : String)
    (properties : List (String × JsValue)) : Except String (List Nat) :=
  match List.lookup msgName templates with
  | none => .error ("Unknown message: " ++ msgName)
  | some t => .ok (properties.foldl (fun buf pv => applyProperty t buf pv.1 pv.2) (initialBuffer t))

/-- A value returned by `getProperty`: number, boolean or string. -/
inductive PropValue where
  | num (n : Int)
  | bool (b : Bool)
  | str (s : String)
deriving Repr, DecidableEq

/-- `Buffer.toString('ascii')`: unset the high bit of each byte, then decode
each byte as a character. -/
def bytesToAscii (l : List Nat) : String := String.mk (l.map (fun b => Char.ofNat (b % 128)))

/-- `.replace(/\0/g, '').trim()` applied to an extracted string. -/
def stripNulsAndTrim (s : String) : String :=
  (String.mk (s.toList.filter (fun ch => ch ≠ Char.ofNat 0))).trim

/-- The multi-byte read path of `getProperty` (all-0xFF multi-entry fields):
or together the in-range bytes little-endian across the entries. -/
def multiByteRead (payload : List Nat) (pd : List PropEntry) : Int :=
  (pd.enum.foldl
    (fun value ie =>
      if 0 ≤ ie.2.byte ∧ ie.2.byte < (payload.length : Int) then
        jsOr value (jsShl ((payload.getD ie.2.byte.toNat 0 : Nat) : Int) (ie.1 * 8))
      else value)
    0)

/-- `getProperty(templates, msgName, payload, propertyName)`: the thrown
`Error`s of the source become `Except.error`. -/
def getProperty (templates : List (String × MessageTemplate)) (msgName : String)
    (payload : List Nat) (propertyName : String) : Except String PropValue :=
  match List.lookup msgName templates with
  | none => .error ("Unknown message: " ++ msgName)
  | some t =>
  match List.lookup propertyName t.properties with
  | none => .error ("Unknown property: " ++ propertyName)
  | some propDef =>
  match propDef.head? with
  | none => .error "empty property definition"
  | some e0 =>
  if e0.byte < 0 ∨ (payload.length : Int) ≤ e0.byte then
    .error "byte offset out of range"
  else
    let off := e0.byte.toNat
    if e0.type = some "string" then
      let strLen := payload.getD off 0
      if strLen = 0 ∨ payload.length < off + 1 + strLen then .ok (.str "")
      else .ok (.str (stripNulsAndTrim (bytesToAscii ((payload.drop (off + 1)).take strLen))))
    else
      match e0.type.bind typeByteCount with
      | some byteCount =>
        -- the inline accumulation loop coincides with readVarint
        let value := readVarint payload off byteCount
        .ok (if e0.type = some "bool" then .bool (value != 0) else .num value)
      | none =>
        if 1 < propDef.length ∧ propDef.all (fun p => p.mask = 0xFF) then
          .ok (.num (multiByteRead payload propDef))
        else if e0.mask = 0xFF then
          match e0.length with
          | some l =>
            if 1 < l then .ok (.num (readVarint payload off l))
            else .ok (.num ((payload.getD off 0 : Nat) : Int))
          | none => .ok (.num ((payload.getD off 0 : Nat) : Int))
        else
          .ok (.bool ((payload.getD off 0) &&& e0.mask ≠ 0))

/-- `isMessageType(templates, response, msgName, offset)`: compare the
message-id bytes and the first template byte (an empty template-byte list makes
the comparison against `undefined` fail, i.e. yields false). -/
def isMessageType (templates : List (String × MessageTemplate)) (response : List Nat)
    (msgName : String) (offset : Nat) : Bool :=
  match List.lookup msgName templates with
  | none => false
  | some t =>
    if response.length < offset + (t.msgIdBytes.length + 1) then false
    else
      match t.templateBytes.head? with
      | none => false
      | some tb0 =>
        (List.range t.msgIdBytes.length).all
          (fun i => response.getD (offset + i) 0 == t.msgIdBytes.getD i 0) &&
        response.getD (offset + t.msgIdBytes.length) 0 == tb0

/-! ## Batch response splitting -/

/-- Fixed per-type payload lengths for batch responses. -/
def BATCH_PAYLOAD_LENGTHS : List (String × Nat) :=
  [("areaStatus", 17), ("zoneStatus", 7), ("triggerStatus", 5),
   ("outputStatus", 5), ("doorStatus", 6), ("filterStatus", 5)]

/-- One message produced by `splitBatchResponse`. -/
structure BatchMessage where
  template : String
  bytes : List Nat
  objectId : Nat
deriving Repr, DecidableEq

/-- The `while` loop of `splitBatchResponse`: cut fixed-length embedded bodies,
validate the first body byte against the template's first message-id byte (a
missing or zero id byte disables the check, mirroring the `expectedMsgIdByte &&`
truthiness guard), take the object id from body offset 3, and continue past a
matching separator byte. -/
def splitBatchGo (templates : List (String × MessageTemplate)) (response : List Nat)
    (expectedTemplate : String) (payloadLength : Nat) (typeIndicator : Nat) :
    Nat → Nat → List BatchMessage
  | 0, _ => []
  | fuel + 1, offset =>
    if offset + payloadLength ≤ response.length then
      let msgBytes := (response.drop offset).take payloadLength
      let expectedMsgIdByte :=
        (List.lookup expectedTemplate templates).bind (fun t => t.msgIdBytes.head?)
      if expectedMsgIdByte.getD 0 ≠ 0 ∧ msgBytes.getD 0 0 ≠ expectedMsgIdByte.getD 0 then []
      else
        let m : BatchMessage := ⟨expectedTemplate, msgBytes, msgBytes.getD 3 0⟩
        let offset2 := offset + payloadLength
        if offset2 < response.length then
          if response.getD offset2 0 = typeIndicator then
            m :: splitBatchGo templates response expectedTemplate payloadLength typeIndicator
              fuel (offset2 + 1)
          else [m]
        else
          m :: splitBatchGo templates response expectedTemplate payloadLength typeIndicator
            fuel offset2
    else []

/-- `splitBatchResponse(templates, response, expectedTemplate)`: short inputs
give `[]`; a non-batch header falls back to a single-message parse; an
unregistered template logs and gives `[]`; otherwise split from offset 4. -/
def splitBatchResponse (templates : List (String × MessageTemplate)) (response : List Nat)
    (expectedTemplate : String) : List BatchMessage :=
  if response.length < 4 then []
  else if response.getD 0 0 ≠ 0xA0 ∨ response.getD 1 0 ≠ 0xEE ∨ response.getD 2 0 ≠ 0xEE then
    match List.lookup expectedTemplate templates with
    | some _ =>
      if response.getD 0 0 = 0xA0 then
        let msgBytes := response.drop 1
        [⟨expectedTemplate, msgBytes, msgBytes.getD 3 0⟩]
      else []
    | none => []
  else
    match List.lookup expectedTemplate BATCH_PAYLOAD_LENGTHS with
    | none => []
    | some payloadLength =>
      -- registered lengths are all positive; a zero length would loop forever
      -- in the source, and `length + 1` rounds of fuel cover every positive one
      if 0 < payloadLength then
        splitBatchGo templates response expectedTemplate payloadLength (response.getD 3 0)
          (response.length + 1) 4
      else []

/-! ## The message template table (`messageTemplates`)

Entries are written with the positional constructor `PropEntry.mk byte mask
length type` (absent `length`/`type` fields are `none`). -/

/-- `generateBitmaskProps(prefix, startByte, startIndex, endIndex)`: one
single-bit entry per index, eight per byte starting at `startByte`. -/
def generateBitmaskProps (pfx : String) (startByte startIndex endIndex : Nat) :
    List (String × List PropEntry) :=
  (List.range (endIndex + 1 - startIndex)).map fun j =>
    (pfx ++ "." ++ toString (startIndex + j),
     [PropEntry.mk ((startByte + j / 8 : Nat) : Int) (1 <<< (j % 8)) none none])

def createSessionT : MessageTemplate where
  msgId := 120
  msgIdBytes := [240, 1]
  templateBytes := [0, 9, 0, 0, 0, 0, 0, 0, 0, 0, 0, 0, 0, 0, 0, 0, 0, 0]
  payloadLength := 20
  properties :=
    [("typeId", [PropEntry.mk 3 255 none none]),
       ("data", [PropEntry.mk 4 255 (some 16) none])]

def batchT : MessageTemplate where
  msgId := 116250679
  msgIdBytes := [238, 224, 238, 238]
  templateBytes := []
  payloadLength := 5
  properties :=
    []

def createPartArmSessionT : MessageTemplate where
  msgId := 294
  msgIdBytes := [204, 4]
  templateBytes := [0, 4, 0, 0, 0, 0, 0, 0, 0, 0]
  payloadLength := 10
  properties :=
    generateBitmaskProps "area" 4 1 64 ++
      [("typeId", [PropEntry.mk 3 255 none none]),
       ("areas-1-32", [PropEntry.mk 4 255 none none]),
       ("areas-33-64", [PropEntry.mk 8 255 none none])]

def createPartArm2SessionT : MessageTemplate where
  msgId := 1062
  msgIdBytes := [204, 16]
  templateBytes := [0, 4, 0, 0, 0, 0, 0, 0, 0, 0]
  payloadLength := 10
  properties :=
    generateBitmaskProps "area" 4 1 64 ++
      [("typeId", [PropEntry.mk 3 255 none none]),
       ("areas-1-32", [PropEntry.mk 4 255 none none]),
       ("areas-33-64", [PropEntry.mk 8 255 none none])]

def createArmSessionT : MessageTemplate where
  msgId := 358
  msgIdBytes := [204, 5]
  templateBytes := [0, 4, 0, 0, 0, 0, 0, 0, 0, 0]
  payloadLength := 10
  properties :=
    generateBitmaskProps "area" 4 1 64 ++
      [("typeId", [PropEntry.mk 3 255 none none]),
       ("areas-1-32", [PropEntry.mk 4 255 none none]),
       ("areas-33-64", [PropEntry.mk 8 255 none none])]

def createDisarmSessionT : MessageTemplate where
  msgId := 230
  msgIdBytes := [204, 3]
  templateBytes := [0, 4, 0, 0, 0, 0, 0, 0, 0, 0]
  payloadLength := 10
  properties :=
    generateBitmaskProps "area" 4 1 64 ++
      [("typeId", [PropEntry.mk 3 255 none none]),
       ("areas-1-32", [PropEntry.mk 4 255 none none]),
       ("areas-33-64", [PropEntry.mk 8 255 none none])]

def createOutputControlSessionT : MessageTemplate where
  msgId := 934
  msgIdBytes := [204, 14]
  templateBytes := [0, 4, 0, 0, 0, 0]
  payloadLength := 8
  properties :=
    generateBitmaskProps "area" 4 1 64 ++
      [("typeId", [PropEntry.mk 3 255 none none]),
       ("areas-1-32", [PropEntry.mk 4 255 none none]),
       ("areas-33-64", [PropEntry.mk 8 255 none none])]

def createTriggerControlSessionT : MessageTemplate where
  msgId := 678
  msgIdBytes := [204, 10]
  templateBytes := [0, 4, 0, 0, 0, 0, 0, 0, 0, 0]
  payloadLength := 12
  properties :=
    generateBitmaskProps "area" 4 1 64 ++
      [("typeId", [PropEntry.mk 3 255 none none]),
       ("areas-1-32", [PropEntry.mk 4 255 none none]),
       ("areas-33-64", [PropEntry.mk 8 255 none none])]

def createZoneControlSessionT : MessageTemplate where
  msgId := 550
  msgIdBytes := [204, 8]
  templateBytes := [0, 4, 0, 0, 0, 0, 0, 0, 0, 0]
  payloadLength := 12
  properties :=
    generateBitmaskProps "area" 4 1 64 ++
      [("typeId", [PropEntry.mk 3 255 none none]),
       ("areas-1-32", [PropEntry.mk 4 255 none none]),
       ("areas-33-64", [PropEntry.mk 8 255 none none])]

def destroyControlSessionT : MessageTemplate where
  msgId := -39
  msgIdBytes := [205, 0]
  templateBytes := [0, 3, 0, 0]
  payloadLength := 7
  properties :=
    [("typeId", [PropEntry.mk 3 255 none none]),
       ("sessionId", [PropEntry.mk 4 255 none none])]

def deviceDescriptionT : MessageTemplate where
  msgId := 4
  msgIdBytes := [8]
  templateBytes := [80, 16, 0, 0, 0, 0, 0, 0, 0, 0, 0, 0, 0, 0, 0, 0, 0, 0, 16, 0, 0, 0, 0, 0, 0, 0, 0, 0, 0, 0, 0, 0, 0, 0, 0, 16, 0, 0, 0, 0, 0, 0, 0, 0, 0, 0, 0, 0, 0, 0, 0, 0, 16, 0, 0, 0, 0, 0, 0, 0, 0, 0, 0, 0, 0, 0, 0, 0, 0, 1, 0, 0, 0, 0, 0, 0, 0, 0, 0, 0, 0, 0, 0, 0, 0, 0, 0]
  payloadLength := 88
  properties :=
    [("typeId", [PropEntry.mk 1 255 none none]),
       ("deviceName", [PropEntry.mk 3 255 (some 16) (some "string")]),
       ("productName", [PropEntry.mk 20 255 (some 16) (some "string")]),
       ("flexibleNumbering", [PropEntry.mk 35 1 none none]),
       ("cdcMode", [PropEntry.mk 35 2 none none]),
       ("firmwareVersion", [PropEntry.mk 37 255 (some 16) (some "string")]),
       ("serialNumber", [PropEntry.mk 54 255 (some 16) (some "string")]),
       ("hardwareVariant", [PropEntry.mk 71 255 none none]),
       ("macAddress", [PropEntry.mk 72 255 (some 6) none]),
       ("encryptionMode", [PropEntry.mk 78 255 none none]),
       ("panelNorm", [PropEntry.mk 79 255 none none]),
       ("daylightSaving1Month", [PropEntry.mk 80 255 none none]),
       ("daylightSaving2Month", [PropEntry.mk 81 255 none none]),
       ("daylightSaving1Mode", [PropEntry.mk 82 255 none none]),
       ("daylightSaving2Mode", [PropEntry.mk 83 255 none none]),
       ("utcOffset", [PropEntry.mk 84 255 none none]),
       ("customer", [PropEntry.mk 85 255 none none]),
       ("region", [PropEntry.mk 86 255 none none]),
       ("panelLanguage", [PropEntry.mk 87 255 none none])]

def logoutT : MessageTemplate where
  msgId := -8
  msgIdBytes := [15]
  templateBytes := [6, 0, 0]
  payloadLength := 4
  properties :=
    [("typeId", [PropEntry.mk 3 255 none none])]

def loginWithPinT : MessageTemplate where
  msgId := 3
  msgIdBytes := [6]
  templateBytes := [6, 11, 6, 0, 0, 0, 0, 0, 0, 11, 0, 0, 0, 0, 0, 0, 0, 0, 0, 0, 0, 0, 0, 0]
  payloadLength := 25
  properties :=
    [("typeId", [PropEntry.mk 3 255 none none]),
       ("canUpload", [PropEntry.mk 4 255 none none]),
       ("canDownload", [PropEntry.mk 5 255 none none]),
       ("canControl", [PropEntry.mk 6 255 none none]),
       ("canMonitor", [PropEntry.mk 7 255 none none]),
       ("canDiagnose", [PropEntry.mk 8 255 none none]),
       ("canReadLogs", [PropEntry.mk 9 255 none none]),
       ("pinCode", [PropEntry.mk 11 255 (some 10) none]),
       ("userPin2", [PropEntry.mk 21 255 (some 1) (some "string")]),
       ("connectionMethod", [PropEntry.mk 22 255 none none]),
       ("connectionMethodExtended", [PropEntry.mk 23 255 none none]),
       ("reservedForFutureUse", [PropEntry.mk 24 255 none none])]

def loginWithAccountT : MessageTemplate where
  msgId := 3
  msgIdBytes := [6]
  templateBytes := [6, 15, 6, 0, 0, 0, 0, 0, 0, 32, 0, 0, 0, 0, 0, 0, 0, 0, 0, 0, 0, 0, 0, 0, 0, 0, 0, 0, 0, 0, 0, 0, 0, 0, 0, 0, 0, 0, 0, 0, 0, 0, 32, 0, 0, 0, 0, 0, 0, 0, 0, 0, 0, 0, 0, 0, 0, 0, 0, 0, 0, 0, 0, 0, 0, 0, 0, 0, 0, 0, 0, 0, 0, 0, 0, 0, 0, 0]
  payloadLength := 79
  properties :=
    [("canUpload", [PropEntry.mk 4 255 none (some "byte")]),
       ("canDownload", [PropEntry.mk 5 255 none (some "byte")]),
       ("canControl", [PropEntry.mk 6 255 none (some "byte")]),
       ("canMonitor", [PropEntry.mk 7 255 none (some "byte")]),
       ("canDiagnose", [PropEntry.mk 8 255 none (some "byte")]),
       ("canReadLogs", [PropEntry.mk 9 255 none (some "byte")]),
       ("username", [PropEntry.mk 11 255 (some 32) none]),
       ("password", [PropEntry.mk 44 255 (some 32) none]),
       ("connectionMethod", [PropEntry.mk 76 255 none (some "byte")]),
       ("connectionMethodExtended", [PropEntry.mk 77 255 none (some "byte")]),
       ("reservedForFutureUse", [PropEntry.mk 78 255 none (some "byte")])]

def getDeviceInfoT : MessageTemplate where
  msgId := -2
  msgIdBytes := [3]
  templateBytes := [80, 0, 0]
  payloadLength := 4
  properties :=
    [("typeId", [PropEntry.mk 3 255 none none])]

def enableEncryptionKeyT : MessageTemplate where
  msgId := 120
  msgIdBytes := [240, 1]
  templateBytes := [0, 0]
  payloadLength := 4
  properties :=
    [("typeId", [PropEntry.mk 3 255 none none])]

def setAreaForcedT : MessageTemplate where
  msgId := -5416
  msgIdBytes := [207, 84]
  templateBytes := [0, 3, 0, 0]
  payloadLength := 7
  properties :=
    [("typeId", [PropEntry.mk 3 255 none none]),
       ("sessionId", [PropEntry.mk 4 255 none none, PropEntry.mk 5 255 none none])]

def getActiveZonesT : MessageTemplate where
  msgId := -5480
  msgIdBytes := [207, 85]
  templateBytes := [33, 0, 0, 0, 0, 0, 0]
  payloadLength := 8
  properties :=
    [("typeId", [PropEntry.mk 3 255 none none]),
       ("sessionId", [PropEntry.mk 5 255 none none, PropEntry.mk 6 255 none none]),
       ("next", [PropEntry.mk 7 255 none none])]

def getFaultZonesT : MessageTemplate where
  msgId := -5288
  msgIdBytes := [207, 82]
  templateBytes := [33, 0, 0, 0, 0, 0, 0]
  payloadLength := 8
  properties :=
    [("typeId", [PropEntry.mk 3 255 none none]),
       ("sessionId", [PropEntry.mk 5 255 none none, PropEntry.mk 6 255 none none]),
       ("next", [PropEntry.mk 7 255 none none])]

def getInhibitedZonesT : MessageTemplate where
  msgId := -5608
  msgIdBytes := [207, 87]
  templateBytes := [33, 0, 0, 0, 0, 0, 0]
  payloadLength := 8
  properties :=
    [("typeId", [PropEntry.mk 3 255 none none]),
       ("sessionId", [PropEntry.mk 5 255 none none, PropEntry.mk 6 255 none none]),
       ("next", [PropEntry.mk 7 255 none none])]

def armAreasT : MessageTemplate where
  msgId := -5224
  msgIdBytes := [207, 81]
  templateBytes := [0, 3, 0, 0]
  payloadLength := 7
  properties :=
    [("typeId", [PropEntry.mk 3 255 none none]),
       ("sessionId", [PropEntry.mk 4 255 none none])]

def disarmAreasT : MessageTemplate where
  msgId := -3176
  msgIdBytes := [207, 49]
  templateBytes := [0, 3, 0, 0]
  payloadLength := 7
  properties :=
    [("typeId", [PropEntry.mk 3 255 none none]),
       ("sessionId", [PropEntry.mk 4 255 none none])]

def activateOutputT : MessageTemplate where
  msgId := -276584
  msgIdBytes := [207, 225, 33]
  templateBytes := [2, 0, 0, 0, 0]
  payloadLength := 8
  properties :=
    [("typeId", [PropEntry.mk 3 255 none none]),
       ("sessionId", [PropEntry.mk 4 255 none none]),
       ("objectId", [PropEntry.mk 7 255 none none])]

def deactivateOutputT : MessageTemplate where
  msgId := -276648
  msgIdBytes := [207, 226, 33]
  templateBytes := [2, 0, 0, 0, 0]
  payloadLength := 8
  properties :=
    [("typeId", [PropEntry.mk 3 255 none none]),
       ("sessionId", [PropEntry.mk 4 255 none none]),
       ("objectId", [PropEntry.mk 7 255 none none])]

def activateTriggerT : MessageTemplate where
  msgId := -272488
  msgIdBytes := [207, 161, 33]
  templateBytes := [2, 0, 0, 0, 0]
  payloadLength := 9
  properties :=
    [("typeId", [PropEntry.mk 3 255 none none]),
       ("sessionId", [PropEntry.mk 4 255 none none]),
       ("objectId", [PropEntry.mk 7 255 none none])]

def deactivateTriggerT : MessageTemplate where
  msgId := -272552
  msgIdBytes := [207, 162, 33]
  templateBytes := [2, 0, 0, 0, 0]
  payloadLength := 9
  properties :=
    [("typeId", [PropEntry.mk 3 255 none none]),
       ("sessionId", [PropEntry.mk 4 255 none none]),
       ("objectId", [PropEntry.mk 7 255 none none])]

def inhibitZoneT : MessageTemplate where
  msgId := -270568
  msgIdBytes := [207, 131, 33]
  templateBytes := [2, 0, 0, 0, 0]
  payloadLength := 8
  properties :=
    [("typeId", [PropEntry.mk 3 255 none none]),
       ("sessionId", [PropEntry.mk 4 255 none none]),
       ("objectId", [PropEntry.mk 7 255 none none])]

def uninhibitZoneT : MessageTemplate where
  msgId := -270632
  msgIdBytes := [207, 132, 33]
  templateBytes := [2, 0, 0, 0, 0]
  payloadLength := 8
  properties :=
    [("typeId", [PropEntry.mk 3 255 none none]),
       ("sessionId", [PropEntry.mk 4 255 none none]),
       ("objectId", [PropEntry.mk 7 255 none none])]

def getUserInfoT : MessageTemplate where
  msgId := 228
  msgIdBytes := [200, 3]
  templateBytes := [0, 0]
  payloadLength := 4
  properties :=
    [("typeId", [PropEntry.mk 3 255 none none])]

def getZonesAssignedToAreasT : MessageTemplate where
  msgId := 484
  msgIdBytes := [200, 7]
  templateBytes := [33, 2, 0, 0, 0, 0, 0, 0, 0, 0]
  payloadLength := 12
  properties :=
    generateBitmaskProps "area" 4 1 64 ++
      [("typeId", [PropEntry.mk 3 255 none none]),
       ("areas-1-32", [PropEntry.mk 4 255 none none, PropEntry.mk 5 255 none none, PropEntry.mk 6 255 none none, PropEntry.mk 7 255 none none]),
       ("areas-33-64", [PropEntry.mk 8 255 none none, PropEntry.mk 9 255 none none, PropEntry.mk 10 255 none none, PropEntry.mk 11 255 none none])]

def getAreaChangesT : MessageTemplate where
  msgId := 165
  msgIdBytes := [202, 2]
  templateBytes := [0, 0]
  payloadLength := 4
  properties :=
    [("typeId", [PropEntry.mk 3 255 none none])]

def getOutputChangesT : MessageTemplate where
  msgId := 485
  msgIdBytes := [202, 7]
  templateBytes := [0, 0]
  payloadLength := 4
  properties :=
    [("typeId", [PropEntry.mk 3 255 none none])]

def getTriggerChangesT : MessageTemplate where
  msgId := 1317
  msgIdBytes := [202, 20]
  templateBytes := [0, 0]
  payloadLength := 4
  properties :=
    [("typeId", [PropEntry.mk 3 255 none none])]

def getZoneChangesT : MessageTemplate where
  msgId := 101
  msgIdBytes := [202, 1]
  templateBytes := [0, 0]
  payloadLength := 4
  properties :=
    [("typeId", [PropEntry.mk 3 255 none none])]

def getAreaStatusT : MessageTemplate where
  msgId := -166
  msgIdBytes := [203, 2]
  templateBytes := [0, 3, 0, 0]
  payloadLength := 6
  properties :=
    [("typeId", [PropEntry.mk 3 255 none none]),
       ("objectId", [PropEntry.mk 5 255 none none])]

def getOutputStatusT : MessageTemplate where
  msgId := -486
  msgIdBytes := [203, 7]
  templateBytes := [0, 3, 0, 0]
  payloadLength := 6
  properties :=
    [("typeId", [PropEntry.mk 3 255 none none]),
       ("objectId", [PropEntry.mk 5 255 none none])]

def getTriggerStatusT : MessageTemplate where
  msgId := -1318
  msgIdBytes := [203, 20]
  templateBytes := [0, 3, 0, 0]
  payloadLength := 6
  properties :=
    [("typeId", [PropEntry.mk 3 255 none none]),
       ("objectId", [PropEntry.mk 5 255 none none])]

def getZoneStatusT : MessageTemplate where
  msgId := -102
  msgIdBytes := [203, 1]
  templateBytes := [0, 3, 0, 0]
  payloadLength := 6
  properties :=
    [("typeId", [PropEntry.mk 3 255 none none]),
       ("objectId", [PropEntry.mk 5 255 none none])]

def getValidAreasT : MessageTemplate where
  msgId := 13
  msgIdBytes := [26]
  templateBytes := [2, 0, 0]
  payloadLength := 4
  properties :=
    [("typeId", [PropEntry.mk 3 255 none none])]

def pingT : MessageTemplate where
  msgId := 3
  msgIdBytes := [6]
  templateBytes := [104, 0, 0]
  payloadLength := 4
  properties :=
    [("typeId", [PropEntry.mk 3 255 none none])]

def openLogT : MessageTemplate where
  msgId := 3
  msgIdBytes := [6]
  templateBytes := [13, 0, 0]
  payloadLength := 4
  properties :=
    [("typeId", [PropEntry.mk 3 255 none none])]

def areaNamesT : MessageTemplate where
  msgId := -13
  msgIdBytes := [25]
  templateBytes := [2, 0, 0, 16]
  payloadLength := 5
  properties :=
    [("name", [PropEntry.mk (-1) 255 (some 16) (some "string")]),
       ("index", [PropEntry.mk 3 255 none none])]

def outputNamesT : MessageTemplate where
  msgId := -13
  msgIdBytes := [25]
  templateBytes := [7, 0, 0, 16]
  payloadLength := 5
  properties :=
    [("name", [PropEntry.mk (-1) 255 (some 16) (some "string")]),
       ("index", [PropEntry.mk 3 255 none none])]

def triggerNamesT : MessageTemplate where
  msgId := -13
  msgIdBytes := [25]
  templateBytes := [20, 0, 0, 16]
  payloadLength := 5
  properties :=
    [("name", [PropEntry.mk (-1) 255 (some 16) (some "string")]),
       ("index", [PropEntry.mk 3 255 none none])]

def zoneNamesT : MessageTemplate where
  msgId := -13
  msgIdBytes := [25]
  templateBytes := [1, 0, 0, 16]
  payloadLength := 5
  properties :=
    [("name", [PropEntry.mk (-1) 255 (some 16) (some "string")]),
       ("index", [PropEntry.mk 3 255 none none])]

def zonesAssignedToAreasT : MessageTemplate where
  msgId := 16
  msgIdBytes := [32]
  templateBytes := [10]
  payloadLength := 2
  properties :=
    [("bitset", [PropEntry.mk 2 255 none none])]

def booleanResponseT : MessageTemplate where
  msgId := 0
  msgIdBytes := [0]
  templateBytes := [1, 0]
  payloadLength := 3
  properties :=
    [("result", [PropEntry.mk 2 255 none (some "bool")])]

def logEntryT : MessageTemplate where
  msgId := -7
  msgIdBytes := [13]
  templateBytes := [0, 0, 0, 0, 0, 0, 0, 0, 0, 0, 0, 0, 0, 0, 0, 0, 0, 0, 0, 0, 0, 0, 0, 0, 0, 0, 0, 0, 0, 0, 0, 0, 0, 0, 0, 0, 0, 0, 0, 0, 0, 0, 0, 0, 0, 0, 0, 0, 0, 0, 0, 0, 0, 0, 0, 0, 0, 0, 0, 0]
  payloadLength := 61
  properties :=
    [("timestamp", [PropEntry.mk 9 255 none none]),
       ("uniqueId", [PropEntry.mk 13 255 none none]),
       ("logType", [PropEntry.mk 14 255 none none]),
       ("eventId", [PropEntry.mk 16 255 none none]),
       ("eventSource", [PropEntry.mk 17 255 none none]),
       ("sourceId", [PropEntry.mk 19 255 none none]),
       ("area", [PropEntry.mk 20 255 none none]),
       ("location", [PropEntry.mk 21 255 none none]),
       ("pcConnection", [PropEntry.mk 21 255 none none]),
       ("wiegandInterface", [PropEntry.mk 21 255 none none]),
       ("regionId", [PropEntry.mk 21 255 none none]),
       ("region", [PropEntry.mk 21 255 none none]),
       ("subDgp", [PropEntry.mk 21 255 none none]),
       ("smsCount", [PropEntry.mk 21 255 none none]),
       ("status", [PropEntry.mk 21 255 none none]),
       ("path", [PropEntry.mk 21 255 none none]),
       ("mainDgp", [PropEntry.mk 21 255 none none]),
       ("shockGross", [PropEntry.mk 21 255 none none]),
       ("cameraMode", [PropEntry.mk 21 255 none none]),
       ("objectClass", [PropEntry.mk 21 255 none none]),
       ("input", [PropEntry.mk 21 255 none none]),
       ("battery", [PropEntry.mk 21 255 none none]),
       ("charger", [PropEntry.mk 21 255 none none]),
       ("accessReaderId", [PropEntry.mk 22 255 none none]),
       ("dealerLogDownload", [PropEntry.mk 22 255 none none]),
       ("shockPulse", [PropEntry.mk 22 255 none none]),
       ("door", [PropEntry.mk 22 255 none none]),
       ("sessionType", [PropEntry.mk 22 255 none none]),
       ("batteryResistance", [PropEntry.mk 22 255 none none]),
       ("pictureId", [PropEntry.mk 22 255 none none]),
       ("dealerLogPowerSource", [PropEntry.mk 23 255 none none]),
       ("dealerLogChargeSource", [PropEntry.mk 23 255 none none]),
       ("pictureSource", [PropEntry.mk 23 255 none none]),
       ("subdeviceUserId", [PropEntry.mk 23 255 none none]),
       ("note", [PropEntry.mk 24 255 none none]),
       ("fuse", [PropEntry.mk 24 255 none none]),
       ("siren", [PropEntry.mk 24 255 none none]),
       ("dealerLogReportEvent", [PropEntry.mk 24 255 none none]),
       ("tamper", [PropEntry.mk 24 255 none none]),
       ("ras", [PropEntry.mk 24 255 none none]),
       ("userId", [PropEntry.mk 24 255 none none]),
       ("centralStation", [PropEntry.mk 24 255 none none]),
       ("systemFaultId", [PropEntry.mk 24 255 none none]),
       ("accessUserId", [PropEntry.mk 24 255 none none]),
       ("accessRegionId", [PropEntry.mk 25 255 none none]),
       ("lift", [PropEntry.mk 25 255 none none]),
       ("rssi", [PropEntry.mk 25 255 none none]),
       ("pictureSourceId", [PropEntry.mk 25 255 none none]),
       ("detailsTimestamp", [PropEntry.mk 28 255 none none]),
       ("userCardNumber", [PropEntry.mk 29 15 none none]),
       ("userCardData", [PropEntry.mk 29 15 none none]),
       ("userCard", [PropEntry.mk 29 255 (some 15) none]),
       ("userCardSize", [PropEntry.mk 29 15 none none]),
       ("eventText", [PropEntry.mk 29 255 (some 32) (some "string")])]

def shortResponseT : MessageTemplate where
  msgId := 0
  msgIdBytes := [0]
  templateBytes := [3, 0, 0]
  payloadLength := 4
  properties :=
    [("result", [PropEntry.mk 2 255 none none, PropEntry.mk 3 255 none none])]

def controlSessionStatusT : MessageTemplate where
  msgId := 16
  msgIdBytes := [32]
  templateBytes := [0, 0, 0]
  payloadLength := 4
  properties :=
    [("stateId", [PropEntry.mk 3 255 none none, PropEntry.mk 2 255 none none])]

def validAreasT : MessageTemplate where
  msgId := -14
  msgIdBytes := [27]
  templateBytes := [2]
  payloadLength := 2
  properties :=
    [("bitset", [PropEntry.mk 2 255 none none])]

def areaStatusT : MessageTemplate where
  msgId := -25
  msgIdBytes := [49]
  templateBytes := [2, 0, 0, 0, 0, 0, 0, 0, 0, 0, 0, 0, 0]
  payloadLength := 14
  properties :=
    [("objectId", [PropEntry.mk 3 255 none none]),
       ("hasFullSetAlarm", [PropEntry.mk 4 128 none none]),
       ("hasUnsetAlarm", [PropEntry.mk 4 64 none none]),
       ("isAlarming", [PropEntry.mk 4 8 none none]),
       ("hasPartSetAlarm", [PropEntry.mk 4 32 none none]),
       ("isUnset", [PropEntry.mk 4 4 none none]),
       ("isFullSet", [PropEntry.mk 4 1 none none]),
       ("hasFullSetAlarm2", [PropEntry.mk 4 16 none none]),
       ("isPartiallySet", [PropEntry.mk 4 2 none none]),
       ("hasFireDoor", [PropEntry.mk 5 1 none none]),
       ("hasFire", [PropEntry.mk 5 32 none none]),
       ("hasFullSetFireDoor", [PropEntry.mk 5 16 none none]),
       ("hasPartSetFireDoor", [PropEntry.mk 5 4 none none]),
       ("hasUnsetFireDoor", [PropEntry.mk 5 8 none none]),
       ("hasFullSetFire", [PropEntry.mk 5 64 none none]),
       ("hasFullSetFireDoor2", [PropEntry.mk 5 2 none none]),
       ("hasPartSetFire", [PropEntry.mk 5 128 none none]),
       ("hasPanic", [PropEntry.mk 6 4 none none]),
       ("hasMedical", [PropEntry.mk 6 128 none none]),
       ("hasPartSetPanic", [PropEntry.mk 6 16 none none]),
       ("hasUnsetPanic", [PropEntry.mk 6 32 none none]),
       ("hasFullSetFire3", [PropEntry.mk 6 2 none none]),
       ("hasUnsetFire", [PropEntry.mk 6 1 none none]),
       ("hasFullSetPanic", [PropEntry.mk 6 8 none none]),
       ("hasFullSetPanic2", [PropEntry.mk 6 64 none none]),
       ("hasTechnical", [PropEntry.mk 7 16 none none]),
       ("hasPartSetMedical", [PropEntry.mk 7 2 none none]),
       ("hasUnsetTechnical", [PropEntry.mk 7 128 none none]),
       ("hasUnsetMedical", [PropEntry.mk 7 4 none none]),
       ("hasFullSetMedical", [PropEntry.mk 7 1 none none]),
       ("hasPartSetTechnical", [PropEntry.mk 7 64 none none]),
       ("hasFullSetMedical2", [PropEntry.mk 7 8 none none]),
       ("hasFullSetTechnical", [PropEntry.mk 7 32 none none]),
       ("hasDoorbell", [PropEntry.mk 8 64 none none]),
       ("hasFullSetTechnical2", [PropEntry.mk 8 1 none none]),
       ("isTampered", [PropEntry.mk 8 2 none none]),
       ("hasFullSetTamper", [PropEntry.mk 8 4 none none]),
       ("hasFullSetTamper2", [PropEntry.mk 8 32 none none]),
       ("hasUnsetTamper", [PropEntry.mk 8 16 none none]),
       ("hasPartSetTamper", [PropEntry.mk 8 8 none none]),
       ("hasPartSetDoorbell", [PropEntry.mk 8 128 none none]),
       ("hasZoneFaults", [PropEntry.mk 9 16 none none]),
       ("hasRasTamper", [PropEntry.mk 9 128 none none]),
       ("hasZoneAntiMask", [PropEntry.mk 9 32 none none]),
       ("hasActiveZones", [PropEntry.mk 9 2 none none]),
       ("hasIsolatedZones", [PropEntry.mk 9 8 none none]),
       ("hasZoneTamper", [PropEntry.mk 9 64 none none]),
       ("hasInhibitedZones", [PropEntry.mk 9 4 none none]),
       ("hasUnsetDoorbell", [PropEntry.mk 9 1 none none]),
       ("hasFullSetDuress", [PropEntry.mk 10 128 none none]),
       ("hasFullSetDuress2", [PropEntry.mk 10 16 none none]),
       ("hasPartSetDuress", [PropEntry.mk 10 32 none none]),
       ("hasRasFault", [PropEntry.mk 10 1 none none]),
       ("hasDgpTamper", [PropEntry.mk 10 2 none none]),
       ("hasUnsetDuress", [PropEntry.mk 10 64 none none]),
       ("hasDuress", [PropEntry.mk 10 8 none none]),
       ("hasDgpFault", [PropEntry.mk 10 4 none none]),
       ("isExiting", [PropEntry.mk 11 4 none none]),
       ("hasExitFault", [PropEntry.mk 11 8 none none]),
       ("hasCodeTamper", [PropEntry.mk 11 1 none none]),
       ("isReadyToArm", [PropEntry.mk 11 16 none none]),
       ("isSetOk", [PropEntry.mk 11 32 none none]),
       ("hasSetFault", [PropEntry.mk 11 64 none none]),
       ("isEntering", [PropEntry.mk 11 2 none none]),
       ("isUnsetOk", [PropEntry.mk 11 128 none none]),
       ("hasAAlarm", [PropEntry.mk 12 16 none none]),
       ("isFireReset", [PropEntry.mk 12 2 none none]),
       ("hasBAlarm", [PropEntry.mk 12 32 none none]),
       ("hasWalkZoneActive", [PropEntry.mk 12 8 none none]),
       ("isAlarmAcknowledged", [PropEntry.mk 12 1 none none]),
       ("isInternalSiren", [PropEntry.mk 12 64 none none]),
       ("isExternalSiren", [PropEntry.mk 12 128 none none]),
       ("isWalking", [PropEntry.mk 12 4 none none]),
       ("hasHbAlarm", [PropEntry.mk 13 128 none none]),
       ("hasHaAlarm", [PropEntry.mk 13 64 none none]),
       ("hasWarning", [PropEntry.mk 13 16 none none]),
       ("isAutoArm", [PropEntry.mk 13 32 none none]),
       ("isBuzzerActive", [PropEntry.mk 13 2 none none]),
       ("isPartiallySet2", [PropEntry.mk 13 8 none none]),
       ("isAntiMaskReset", [PropEntry.mk 13 4 none none]),
       ("isStrobeActive", [PropEntry.mk 13 1 none none]),
       ("isAutoArmExtendedTime", [PropEntry.mk 14 128 none none]),
       ("hasZoneIsolateLimit", [PropEntry.mk 14 2 none none]),
       ("isAutoArmTime", [PropEntry.mk 14 32 none none]),
       ("hasZoneInhibitLimit", [PropEntry.mk 14 1 none none]),
       ("hasZoneShuntLimit", [PropEntry.mk 14 4 none none]),
       ("isAutoArmWarningTime", [PropEntry.mk 14 64 none none]),
       ("hasIsolateLimitFault", [PropEntry.mk 14 8 none none]),
       ("isAutoArmDelay", [PropEntry.mk 14 16 none none]),
       ("isSensorReset", [PropEntry.mk 15 64 none none]),
       ("hasZoneDelayedShunt", [PropEntry.mk 15 1 none none]),
       ("hasZoneDelayedShuntWarning", [PropEntry.mk 15 2 none none]),
       ("hasZoneShunt", [PropEntry.mk 15 16 none none]),
       ("isProhibitUnset", [PropEntry.mk 15 8 none none]),
       ("isUnsetDelayed", [PropEntry.mk 15 4 none none]),
       ("isScheduled", [PropEntry.mk 15 128 none none]),
       ("hasShuntFault", [PropEntry.mk 15 32 none none]),
       ("hasZoneMainsFail", [PropEntry.mk 16 8 none none]),
       ("hasVocTamper", [PropEntry.mk 16 2 none none]),
       ("isFaultAcknowledged", [PropEntry.mk 16 32 none none]),
       ("hasVocFault", [PropEntry.mk 16 4 none none]),
       ("hasReaderTamper", [PropEntry.mk 16 1 none none]),
       ("hasZoneJamFail", [PropEntry.mk 16 16 none none]),
       ("hasVocTamperV21", [PropEntry.mk 16 1 none none]),
       ("hasVocFaultV21", [PropEntry.mk 16 2 none none])]

def outputStatusT : MessageTemplate where
  msgId := -25
  msgIdBytes := [49]
  templateBytes := [7, 0, 0, 0]
  payloadLength := 5
  properties :=
    [("objectId", [PropEntry.mk 3 255 none none]),
       ("isActive", [PropEntry.mk 4 1 none none]),
       ("isOn", [PropEntry.mk 4 2 none none]),
       ("isForced", [PropEntry.mk 4 4 none none])]

def triggerStatusT : MessageTemplate where
  msgId := -25
  msgIdBytes := [49]
  templateBytes := [20, 0, 0, 0]
  payloadLength := 5
  properties :=
    [("objectId", [PropEntry.mk 3 255 none none]),
       ("isRemoteOutput", [PropEntry.mk 4 8 none none]),
       ("isFob", [PropEntry.mk 4 64 none none]),
       ("isKeyfobSwitch1", [PropEntry.mk 4 1 none none]),
       ("isKeyfobSwitch2", [PropEntry.mk 4 2 none none]),
       ("isSchedule", [PropEntry.mk 4 32 none none]),
       ("isKeyfobSwitch12", [PropEntry.mk 4 4 none none]),
       ("isFunctionKey", [PropEntry.mk 4 16 none none])]

def zoneStatusT : MessageTemplate where
  msgId := -25
  msgIdBytes := [49]
  templateBytes := [1, 0, 0, 0, 0, 0]
  payloadLength := 7
  properties :=
    [("objectId", [PropEntry.mk 3 255 none none]),
       ("hasFault", [PropEntry.mk 4 16 none none]),
       ("isDirty", [PropEntry.mk 4 32 none none]),
       ("hasSupervisoryLong", [PropEntry.mk 4 128 none none]),
       ("isTampered", [PropEntry.mk 4 2 none none]),
       ("hasSupervisoryShort", [PropEntry.mk 4 64 none none]),
       ("isActive", [PropEntry.mk 4 1 none none]),
       ("hasBatteryFault", [PropEntry.mk 4 8 none none]),
       ("isAntiMask", [PropEntry.mk 4 4 none none]),
       ("isLearned", [PropEntry.mk 5 32 none none]),
       ("isHeldOpen", [PropEntry.mk 5 128 none none]),
       ("isPreLearned", [PropEntry.mk 5 64 none none]),
       ("isIsolated", [PropEntry.mk 5 2 none none]),
       ("isInhibited", [PropEntry.mk 5 1 none none]),
       ("isInSoakTest", [PropEntry.mk 5 4 none none]),
       ("isSet", [PropEntry.mk 5 8 none none]),
       ("isAlarming", [PropEntry.mk 5 16 none none]),
       ("hasRfJamFault", [PropEntry.mk 6 64 none none]),
       ("hasDelayedShuntWarning", [PropEntry.mk 6 16 none none]),
       ("isShunted", [PropEntry.mk 6 2 none none]),
       ("hasShuntFault", [PropEntry.mk 6 4 none none]),
       ("hasMainsFail", [PropEntry.mk 6 32 none none]),
       ("hasDelayedShunt", [PropEntry.mk 6 8 none none]),
       ("hasInvalidWireType", [PropEntry.mk 6 1 none none])]

def getAreaNamesT : MessageTemplate where
  msgId := 12
  msgIdBytes := [24]
  templateBytes := [2, 0, 3, 0, 0]
  payloadLength := 6
  properties :=
    [("typeId", [PropEntry.mk 3 255 none none]),
       ("index", [PropEntry.mk 5 255 none none])]

def getOutputNamesT : MessageTemplate where
  msgId := 12
  msgIdBytes := [24]
  templateBytes := [7, 0, 3, 0, 0]
  payloadLength := 6
  properties :=
    [("typeId", [PropEntry.mk 3 255 none none]),
       ("index", [PropEntry.mk 5 255 none none])]

def getTriggerNamesT : MessageTemplate where
  msgId := 12
  msgIdBytes := [24]
  templateBytes := [20, 0, 3, 0, 0]
  payloadLength := 6
  properties :=
    [("typeId", [PropEntry.mk 3 255 none none]),
       ("index", [PropEntry.mk 5 255 none none])]

def getZoneNamesT : MessageTemplate where
  msgId := 12
  msgIdBytes := [24]
  templateBytes := [1, 0, 3, 0, 0]
  payloadLength := 6
  properties :=
    [("typeId", [PropEntry.mk 3 255 none none]),
       ("index", [PropEntry.mk 5 255 none none])]

def getAreaNamesExtendedT : MessageTemplate where
  msgId := -13
  msgIdBytes := [25]
  templateBytes := [2, 0, 3, 0, 0]
  payloadLength := 6
  properties :=
    [("typeId", [PropEntry.mk 3 255 none none]),
       ("index", [PropEntry.mk 5 255 none none])]

def getZoneNamesExtendedT : MessageTemplate where
  msgId := -13
  msgIdBytes := [25]
  templateBytes := [1, 0, 3, 0, 0]
  payloadLength := 6
  properties :=
    [("typeId", [PropEntry.mk 3 255 none none]),
       ("index", [PropEntry.mk 5 255 none none])]

def selectLogEntryT : MessageTemplate where
  msgId := -2
  msgIdBytes := [3]
  templateBytes := [13, 0, 2, 0]
  payloadLength := 5
  properties :=
    [("typeId", [PropEntry.mk 3 255 none none]),
       ("logReadingDirection", [PropEntry.mk 4 255 none none])]

def startMonitorT : MessageTemplate where
  msgId := -101
  msgIdBytes := [201, 1]
  templateBytes := [0, 0]
  payloadLength := 4
  properties :=
    []

def getControlSessionStatusT : MessageTemplate where
  msgId := 39
  msgIdBytes := [206, 0]
  templateBytes := [0, 3, 0, 0]
  payloadLength := 7
  properties :=
    [("typeId", [PropEntry.mk 3 255 none none]),
       ("sessionId", [PropEntry.mk 4 255 none none])]

/-- The full template table, in source order. -/
def messageTemplates : List (String × MessageTemplate) :=
  [("createSession", createSessionT),
   ("batch", batchT),
   ("createPartArmSession", createPartArmSessionT),
   ("createPartArm2Session", createPartArm2SessionT),
   ("createArmSession", createArmSessionT),
   ("createDisarmSession", createDisarmSessionT),
   ("createOutputControlSession", createOutputControlSessionT),
   ("createTriggerControlSession", createTriggerControlSessionT),
   ("createZoneControlSession", createZoneControlSessionT),
   ("destroyControlSession", destroyControlSessionT),
   ("deviceDescription", deviceDescriptionT),
   ("logout", logoutT),
   ("loginWithPin", loginWithPinT),
   ("loginWithAccount", loginWithAccountT),
   ("getDeviceInfo", getDeviceInfoT),
   ("enableEncryptionKey", enableEncryptionKeyT),
   ("setAreaForced", setAreaForcedT),
   ("getActiveZones", getActiveZonesT),
   ("getFaultZones", getFaultZonesT),
   ("getInhibitedZones", getInhibitedZonesT),
   ("armAreas", armAreasT),
   ("disarmAreas", disarmAreasT),
   ("activateOutput", activateOutputT),
   ("deactivateOutput", deactivateOutputT),
   ("activateTrigger", activateTriggerT),
   ("deactivateTrigger", deactivateTriggerT),
   ("inhibitZone", inhibitZoneT),
   ("uninhibitZone", uninhibitZoneT),
   ("getUserInfo", getUserInfoT),
   ("getZonesAssignedToAreas", getZonesAssignedToAreasT),
   ("getAreaChanges", getAreaChangesT),
   ("getOutputChanges", getOutputChangesT),
   ("getTriggerChanges", getTriggerChangesT),
   ("getZoneChanges", getZoneChangesT),
   ("getAreaStatus", getAreaStatusT),
   ("getOutputStatus", getOutputStatusT),
   ("getTriggerStatus", getTriggerStatusT),
   ("getZoneStatus", getZoneStatusT),
   ("getValidAreas", getValidAreasT),
   ("ping", pingT),
   ("openLog", openLogT),
   ("areaNames", areaNamesT),
   ("outputNames", outputNamesT),
   ("triggerNames", triggerNamesT),
   ("zoneNames", zoneNamesT),
   ("zonesAssignedToAreas", zonesAssignedToAreasT),
   ("booleanResponse", booleanResponseT),
   ("logEntry", logEntryT),
   ("shortResponse", shortResponseT),
   ("controlSessionStatus", controlSessionStatusT),
   ("validAreas", validAreasT),
   ("areaStatus", areaStatusT),
   ("outputStatus", outputStatusT),
   ("triggerStatus", triggerStatusT),
   ("zoneStatus", zoneStatusT),
   ("getAreaNames", getAreaNamesT),
   ("getOutputNames", getOutputNamesT),
   ("getTriggerNames", getTriggerNamesT),
   ("getZoneNames", getZoneNamesT),
   ("getAreaNamesExtended", getAreaNamesExtendedT),
   ("getZoneNamesExtended", getZoneNamesExtendedT),
   ("selectLogEntry", selectLogEntryT),
   ("startMonitor", startMonitorT),
   ("getControlSessionStatus", getControlSessionStatusT)]

/-! ## Transport multiplexer: frame extraction and routing (`handleData`) -/

/-- `checkForUnsolicitedMessage(frame)`: with no session key the frame is not
unsolicited; a failed decryption (or a decryption exception, caught by the
surrounding `try`) is not unsolicited either; otherwise a decrypted header byte
of 0xC0 marks the frame unsolicited (COS frames notify listeners, others only
log a warning — both return true), and 0xA0/0xF0 mark it a response. -/
def checkForUnsolicitedMessage (aesBlock : List Nat → List Nat → List Nat)
    (sessionKey : Option (List Nat)) (serialBytes : List Nat) (frame : List Nat) : Bool :=
  match sessionKey with
  | none => false
  | some key =>
    match decryptMessage aesBlock frame key serialBytes with
    | none => false
    | some decrypted =>
      if decrypted.length < 2 then false
      else decrypted.getD 0 0 == 0xC0

/-- The observable routing state of the multiplexer: the rolling receive
buffer, the response queue, whether a response waiter is registered, the frames
handed to a waiter, and the frames consumed by the unsolicited path. -/
structure MuxState where
  receiveBuffer : List Nat
  responseQueue : List (List Nat)
  hasPendingResolver : Bool
  deliveredResponses : List (List Nat)
  unsolicitedFrames : List (List Nat)
deriving Repr, DecidableEq

/-- The `while (true)` loop of `handleData`: find a SLIP_END byte and the next
one after it, slice the frame out (bytes before the first marker are dropped
with it), advance the buffer past the frame, classify the frame, and either
consume it as unsolicited or push it on the response queue — shifting the queue
head to a pending waiter when one is registered. -/
def handleFramesGo (isUnsol : List Nat → Bool) : Nat → List Nat → MuxState → MuxState
  | 0, buffer, st => { st with receiveBuffer := buffer }
  | fuel + 1, buffer, st =>
    match buffer.findIdx? (· == SLIP_END) with
    | none => { st with receiveBuffer := buffer }
    | some startIdx =>
      match (buffer.drop (startIdx + 1)).findIdx? (· == SLIP_END) with
      | none => { st with receiveBuffer := buffer }
      | some k =>
        let endIdx := startIdx + 1 + k
        let frame := (buffer.drop startIdx).take (endIdx + 1 - startIdx)
        let rest := buffer.drop (endIdx + 1)
        if isUnsol frame then
          handleFramesGo isUnsol fuel rest
            { st with unsolicitedFrames := st.unsolicitedFrames ++ [frame] }
        else
          let queue := st.responseQueue ++ [frame]
          if st.hasPendingResolver then
            handleFramesGo isUnsol fuel rest
              { st with responseQueue := queue.tail,
                        hasPendingResolver := false,
                        deliveredResponses := st.deliveredResponses ++ [queue.headD []] }
          else
            handleFramesGo isUnsol fuel rest { st with responseQueue := queue }

/-- Entry point of the loop: every iteration consumes at least two buffer
bytes, so `length + 1` rounds of fuel can never run out. -/
def handleFrames (isUnsol : List Nat → Bool) (buffer : List Nat) (st : MuxState) : MuxState :=
  handleFramesGo isUnsol (buffer.length + 1) buffer st

/-- `handleData(data)`: append the received bytes to the rolling buffer and run
the frame-extraction loop. -/
def handleData (aesBlock : List Nat → List Nat → List Nat) (sessionKey : Option (List Nat))
    (serialBytes : List Nat) (st : MuxState) (data : List Nat) : MuxState :=
  handleFrames (checkForUnsolicitedMessage aesBlock sessionKey serialBytes)
    (st.receiveBuffer ++ data) st

/-! ## Control-session lifecycle (`_withControlSession` / `armArea` step 4) -/

/-- Result of one control-session operation together with the
`destroyControlSession` calls it issued (by session id). -/
structure ControlSessionRun (α : Type) where
  outcome : Except String α
  destroysIssued : List Nat

/-- The create / act / `finally`-destroy shape shared by `_withControlSession`
and `armArea`: `createResult` is the create call (`.error` for a thrown panel
error or timeout, `.ok none` when `parseCreateCCResponse` returns null, which
raises CREATE_CC_FAILED, `.ok (some sid)` for a parsed session id); `action`
is the verb body run inside `try`; `destroyResult` is the
`destroyControlSession` call awaited inside `finally` with no catch of its own,
so when it throws, JavaScript replaces the `try` block's result or exception
with the destroy exception. -/
def withControlSession {α : Type} (createResult : Except String (Option Nat))
    (action : Nat → Except String α) (destroyResult : Nat → Except String Unit) :
    ControlSessionRun α :=
  match createResult with
  | .error e => ⟨.error e, []⟩
  | .ok none => ⟨.error "CREATE_CC_FAILED", []⟩
  | .ok (some sessionId) =>
    let r := action sessionId
    match destroyResult sessionId with
    | .error e => ⟨.error e, [sessionId]⟩
    | .ok _ => ⟨r, [sessionId]⟩

/-! ## Arm polling state machine (`armArea` steps 2–3, `_readArmIssues`) -/

/-- The fuel-limited loop of `_readArmIssues` (at most 100 iterations):
`issueResp i` is the decrypted reply to the `i`-th issues query (`.error` for a
thrown panel error, which ends the read); stop on short replies and on a
`booleanResponse`; collect replies of length at least 5. -/
def readArmIssuesGo (issueResp : Nat → Except String (List Nat)) :
    Nat → Nat → List (List Nat)
  | 0, _ => []
  | fuel + 1, i =>
    match issueResp i with
    | .error _ => []
    | .ok response =>
      if response.length < 3 then []
      else if isMessageType messageTemplates response "booleanResponse" 1 then []
      else if 5 ≤ response.length then response :: readArmIssuesGo issueResp fuel (i + 1)
      else readArmIssuesGo issueResp fuel (i + 1)

/-- `_readArmIssues(sessionId, messageName)`: the collected raw issue replies
(the source stores `{raw, index}` records; the raw bytes identify them). -/
def readArmIssues (issueResp : Nat → Except String (List Nat)) : List (List Nat) :=
  readArmIssuesGo issueResp 100 0

/-- Arm set types and the status tables of `armArea`. -/
inductive SetType where
  | full
  | part1
  | part2
deriving Repr, DecidableEq

def successStatuses : SetType → List Int
  | .full => [0x0504, 0x0505]
  | .part1 => [0x0404, 0x0405]
  | .part2 => [0x1004, 0x1005]

def faultStatus : SetType → Int
  | .full => 0x0501
  | .part1 => 0x0401
  | .part2 => 0x1001

def activeStatus : SetType → Int
  | .full => 0x0502
  | .part1 => 0x0402
  | .part2 => 0x1002

def inhibitedStatus : SetType → Int
  | .full => 0x0503
  | .part1 => 0x0403
  | .part2 => 0x1003

/-- Terminal outcomes of the arm polling loop, mirroring the `AritechError`
codes thrown by `armArea` (the success path just returns). -/
inductive ArmOutcome where
  | success
  | armFaults (faults : List (List Nat))
  | armActiveZones (zones : List (List Nat))
  | armInhibited (zones : List (List Nat))
  | forceArmFailed (status : Int)
  | armTimeout (lastStatus : Int)
deriving Repr, DecidableEq

/-- Outcome of the polling loop plus how many `setAreaForced` requests and how
many `armAreas` re-sends (inhibited force path) were issued. -/
structure ArmPollResult where
  outcome : ArmOutcome
  forceSends : Nat
  reArmSends : Nat
deriving Repr, DecidableEq

/-- The 60-iteration polling loop of `armArea` step 3.  `pollResp i` is the
decrypted reply to the `i`-th `getControlSessionStatus`; replies shorter than 5
bytes or that are not a `controlSessionStatus` are skipped; otherwise the
`stateId` field drives, in source order, the success, fault, active and
inhibited branches with their force handling (`pollsAfterForce` is incremented
and then compared against 10). -/
def armPollGo (setType : SetType) (force : Bool) (pollResp : Nat → List Nat)
    (issueResp : Nat → Except String (List Nat)) :
    Nat → Nat → Bool → Nat → Int → Nat → Nat → ArmPollResult
  | 0, _, _, _, lastStatus, fs, rs => ⟨.armTimeout lastStatus, fs, rs⟩
  | fuel + 1, i, forcedOnce, pollsAfterForce, lastStatus, fs, rs =>
    if i < 60 then
      let r := pollResp i
      if r.length < 5 then
        armPollGo setType force pollResp issueResp fuel (i + 1) forcedOnce pollsAfterForce lastStatus fs rs
      else if ¬ isMessageType messageTemplates r "controlSessionStatus" 1 then
        armPollGo setType force pollResp issueResp fuel (i + 1) forcedOnce pollsAfterForce lastStatus fs rs
      else
        match getProperty messageTemplates "controlSessionStatus" (r.drop 1) "stateId" with
        | .ok (.num stateId) =>
          if stateId ∈ successStatuses setType then ⟨.success, fs, rs⟩
          else if stateId = faultStatus setType then
            if ¬ forcedOnce ∧ force then
              armPollGo setType force pollResp issueResp fuel (i + 1) true 0 stateId (fs + 1) rs
            else if forcedOnce then
              if 10 ≤ pollsAfterForce + 1 then ⟨.forceArmFailed stateId, fs, rs⟩
              else armPollGo setType force pollResp issueResp fuel (i + 1) forcedOnce (pollsAfterForce + 1) stateId fs rs
            else ⟨.armFaults (readArmIssues issueResp), fs, rs⟩
          else if stateId = activeStatus setType then
            if ¬ forcedOnce ∧ force then
              armPollGo setType force pollResp issueResp fuel (i + 1) true 0 stateId (fs + 1) rs
            else if forcedOnce then
              if 10 ≤ pollsAfterForce + 1 then ⟨.forceArmFailed stateId, fs, rs⟩
              else armPollGo setType force pollResp issueResp fuel (i + 1) forcedOnce (pollsAfterForce + 1) stateId fs rs
            else ⟨.armActiveZones (readArmIssues issueResp), fs, rs⟩
          else if stateId = inhibitedStatus setType then
            if ¬ forcedOnce ∧ force then
              armPollGo setType force pollResp issueResp fuel (i + 1) true 0 stateId fs (rs + 1)
            else if forcedOnce then
              if 10 ≤ pollsAfterForce + 1 then ⟨.forceArmFailed stateId, fs, rs⟩
              else armPollGo setType force pollResp issueResp fuel (i + 1) forcedOnce (pollsAfterForce + 1) stateId fs rs
            else ⟨.armInhibited (readArmIssues issueResp), fs, rs⟩
          else
            armPollGo setType force pollResp issueResp fuel (i + 1) forcedOnce pollsAfterForce stateId fs rs
        | _ =>
          -- unreachable: a reply of length ≥ 5 always yields a numeric stateId
          armPollGo setType force pollResp issueResp fuel (i + 1) forcedOnce pollsAfterForce lastStatus fs rs
    else ⟨.armTimeout lastStatus, fs, rs⟩

/-- The whole polling phase of `armArea` after `armAreas` was sent. -/
def armPoll (setType : SetType) (force : Bool) (pollResp : Nat → List Nat)
    (issueResp : Nat → Except String (List Nat)) : ArmPollResult :=
  armPollGo setType force pollResp issueResp 60 0 false 0 0 0 0

/-- A decrypted `controlSessionStatus` reply carrying the given 16-bit state
id: response header 0xA0, message id 0x20, first template byte 0x00, then the
state id big-endian (the template's reversed entry order reads it back). -/
def statusFrame (stateId : Nat) : List Nat :=
  [0xA0, 0x20, 0x00, stateId / 256, stateId % 256]

/-- A poll reply that the loop skips: too short or not a
`controlSessionStatus`. -/
def skippedPoll (r : List Nat) : Prop :=
  r.length < 5 ∨ isMessageType messageTemplates r "controlSessionStatus" 1 = false

/-- Flip bit `j` of the byte at position `pos`. -/
def flipBit (l : List Nat) (pos j : Nat) : List Nat :=
  l.set pos ((l.getD pos 0) ^^^ (1 <<< j))

/-- Separator-joined embedded bodies, as the batch wire format carries them:
bodies separated by single separator bytes. -/
def sepJoin (t : Nat) : List (List Nat) → List Nat
  | [] => []
  | [b] => b
  | b :: b2 :: rest => b ++ t :: sepJoin t (b2 :: rest)

/-- A well-formed batch response: header A0 EE EE, a type-indicator byte, then
the embedded bodies separated by that byte. -/
def mkBatch (t : Nat) (bodies : List (List Nat)) : List Nat :=
  0xA0 :: 0xEE :: 0xEE :: t :: sepJoin t bodies

/-- The polling loop entered at poll index `i` (the remaining fuel of the
60-poll budget is `60 - i`). -/
def armPollFrom (setType : SetType) (force : Bool) (pollResp : Nat → List Nat)
    (issueResp : Nat → Except String (List Nat)) (i : Nat) (forcedOnce : Bool)
    (pollsAfterForce : Nat) (lastStatus : Int) (fs rs : Nat) : ArmPollResult :=
  armPollGo setType force pollResp issueResp (60 - i) i forcedOnce pollsAfterForce lastStatus fs rs

instance {ε α : Type} [DecidableEq ε] [DecidableEq α] : DecidableEq (Except ε α) := fun
  | .ok a, .ok b => decidable_of_iff (a = b) (by simp)
  | .error a, .error b => decidable_of_iff (a = b) (by simp)
  | .ok _, .error _ => isFalse (by simp)
  | .error _, .ok _ => isFalse (by simp)

/-! ## Arithmetic lemmas for the 32-bit helpers -/

theorem jsToUint32_ofNat (n : Nat) (h : n < 4294967296) : jsToUint32 ((n : Nat) : Int) = n := by
  simp only [jsToUint32]
  omega

theorem jsToInt32_ofNat (n : Nat) (h : n < 2147483648) : jsToInt32 ((n : Nat) : Int) = n := by
  simp only [jsToInt32]
  omega

theorem jsOr_nat (a b : Nat) (ha : a < 2 ^ 31) (hb : b < 2 ^ 31) :
    jsOr ((a : Nat) : Int) ((b : Nat) : Int) = ((a ||| b : Nat) : Int) := by
  have h32 : (2 : Nat) ^ 31 ≤ 4294967296 := by norm_num
  have hor : a ||| b < 2 ^ 31 := Nat.or_lt_two_pow ha hb
  simp only [jsOr, jsToUint32_ofNat a (by omega), jsToUint32_ofNat b (by omega)]
  exact jsToInt32_ofNat _ (by simpa using hor)

theorem jsShl_nat (b k : Nat) (hk : k < 32) (h : b * 2 ^ k < 2 ^ 31) :
    jsShl ((b : Nat) : Int) k = ((b <<< k : Nat) : Int) := by
  have hb : b < 2 ^ 31 := by
    have h1 : (1 : Nat) ≤ 2 ^ k := Nat.one_le_two_pow
    calc b = b * 1 := by ring
    _ ≤ b * 2 ^ k := Nat.mul_le_mul_left b h1
    _ < 2 ^ 31 := h
  simp only [jsShl, jsToInt32_ofNat b (by simpa using hb), Nat.mod_eq_of_lt hk]
  rw [Nat.shiftLeft_eq]
  have hcast : ((b : Nat) : Int) * 2 ^ k = ((b * 2 ^ k : Nat) : Int) := by push_cast; ring
  rw [hcast]
  exact jsToInt32_ofNat _ (by simpa using h)

theorem jsShr8_nat (v : Nat) (h : v < 2 ^ 31) :
    jsShr ((v : Nat) : Int) 8 = ((v / 256 : Nat) : Int) := by
  simp only [jsShr, jsToInt32_ofNat v (by simpa using h)]
  have h8 : (8 : Nat) % 32 = 8 := by norm_num
  rw [h8, Int.fdiv_eq_ediv _ (by norm_num)]
  push_cast
  omega

theorem jsAnd255_nat (v : Nat) (h : v < 4294967296) :
    jsAnd ((v : Nat) : Int) 255 = ((v % 256 : Nat) : Int) := by
  have h255 : jsToUint32 255 = 255 := by decide
  simp only [jsAnd, jsToUint32_ofNat v h, h255]
  have : Nat.land v 255 = v % 256 := by
    have := Nat.and_pow_two_sub_one_eq_mod v 8
    norm_num at this
    exact this
  rw [this]
  exact jsToInt32_ofNat _ (by omega)

/-- Splitting a sum `a + b·2^k` at bit `k` (with `a < 2^k`) bit by bit. -/
theorem testBit_add_mul_two_pow (a b k i : Nat) (h : a < 2 ^ k) :
    (a + b * 2 ^ k).testBit i = if i < k then a.testBit i else b.testBit (i - k) := by
  rcases Nat.lt_or_ge i k with hik | hik
  · rw [if_pos hik]
    have hki : k - i + i = k := by omega
    have hsplit : b * 2 ^ k = b * 2 ^ (k - i) * 2 ^ i := by
      rw [mul_assoc, ← pow_add, hki]
    rw [Nat.testBit_to_div_mod, Nat.testBit_to_div_mod, hsplit,
      Nat.add_mul_div_right _ _ (pow_pos (by norm_num : (0:Nat) < 2) i)]
    have heven : b * 2 ^ (k - i) % 2 = 0 := by
      rcases dvd_pow_self 2 (show k - i ≠ 0 by omega) with ⟨c, hc⟩
      rw [hc, show b * (2 * c) = 2 * (b * c) by ring]
      exact Nat.mul_mod_right 2 (b * c)
    have hmod : (a / 2 ^ i + b * 2 ^ (k - i)) % 2 = a / 2 ^ i % 2 := by omega
    rw [hmod]
  · rw [if_neg (by omega)]
    have hik2 : k + (i - k) = i := by omega
    have hsplit : (2 : Nat) ^ i = 2 ^ k * 2 ^ (i - k) := by rw [← pow_add, hik2]
    rw [Nat.testBit_to_div_mod, Nat.testBit_to_div_mod, hsplit, ← Nat.div_div_eq_div_mul,
      Nat.add_mul_div_right _ _ (pow_pos (by norm_num : (0:Nat) < 2) k),
      Nat.div_eq_of_lt h, Nat.zero_add]

/-- Disjoint or is addition: `a ||| b·2^k = a + b·2^k` when `a < 2^k`. -/
theorem lor_mul_two_pow_eq_add (a b k : Nat) (h : a < 2 ^ k) :
    a ||| b * 2 ^ k = a + b * 2 ^ k := by
  apply Nat.eq_of_testBit_eq
  intro i
  rw [Nat.testBit_lor, testBit_add_mul_two_pow a b k i h, ← Nat.shiftLeft_eq,
    Nat.testBit_shiftLeft]
  rcases Nat.lt_or_ge i k with hik | hik
  · simp [if_pos hik, show ¬ i ≥ k by omega]
  · have ha : a.testBit i = false :=
      Nat.testBit_eq_false_of_lt (lt_of_lt_of_le h (Nat.pow_le_pow_right (by norm_num) hik))
    simp [if_neg (show ¬ i < k by omega), ha, hik]

/-- Big-endian byte pair recomposition: `(hi <<< 8) ||| lo = hi·256 + lo`. -/
theorem shl8_or_lo (hi lo : Nat) (hlo : lo < 256) :
    (hi <<< 8) ||| lo = hi * 256 + lo := by
  rw [Nat.shiftLeft_eq, Nat.lor_comm]
  have h := lor_mul_two_pow_eq_add lo hi 8 (by norm_num; omega)
  norm_num at h ⊢
  omega

/-! ## Claim C6 — CRC test vectors -/

set_option maxRecDepth 8000 in
/-- C6 (counterexample): the claim asserts `crc16([0x00]) = 0xC0C1`, but the
source's CRC (init 0xFFFF, polynomial 0xA001, LSB-first) of the single zero
byte is 0x40BF. -/
theorem c6_crc16_zero_byte_counterexample :
    crc16 [0x00] = 0x40BF ∧ crc16 [0x00] ≠ 0xC0C1 := by
  refine ⟨by decide, by decide⟩

set_option maxRecDepth 30000 in
/-- C6 (amended): `crc16` of the empty byte string is 0xFFFF, `crc16` of the
single byte 0x00 is 0x40BF, and `appendCrc` followed by `verifyCrc` on the
bytes C0 01 00 05 00 05 yields true. -/
theorem c6_crc16_test_vectors_amended :
    crc16 [] = 0xFFFF ∧ crc16 [0x00] = 0x40BF ∧
    verifyCrc (appendCrc [0xC0, 0x01, 0x00, 0x05, 0x00, 0x05]) = true := by
  refine ⟨by decide, by decide, by decide⟩

/-! ## Claim C8 — key derivation for "AAAAAAAAAAAABBBBBBBBBBBB" -/

/-- C8 (counterexample): the first two key bytes differ (0xCE vs 0x31), so the
first 8 bytes of the derived key are not all identical. -/
theorem c8_key_bytes_counterexample :
    (makeEncryptionKey "AAAAAAAAAAAABBBBBBBBBBBB").getD 0 0 = 0xCE ∧
    (makeEncryptionKey "AAAAAAAAAAAABBBBBBBBBBBB").getD 1 0 = 0x31 ∧
    (makeEncryptionKey "AAAAAAAAAAAABBBBBBBBBBBB").getD 0 0 ≠
      (makeEncryptionKey "AAAAAAAAAAAABBBBBBBBBBBB").getD 1 0 := by
  refine ⟨rfl, rfl, ?_⟩
  decide

/-- C8 (amended): the password "AAAAAAAAAAAABBBBBBBBBBBB" derives the 16-byte
key CE 31 CE 31 CE 31 CE 31 CA 53 CA 53 CA 53 CA 53: each 12-character half
packs into a two-byte pattern repeated four times (bytes at even offsets of a
half are identical, bytes at odd offsets are identical), rather than 8
identical bytes per half. -/
theorem c8_key_bytes_amended :
    makeEncryptionKey "AAAAAAAAAAAABBBBBBBBBBBB" =
      [0xCE, 0x31, 0xCE, 0x31, 0xCE, 0x31, 0xCE, 0x31,
       0xCA, 0x53, 0xCA, 0x53, 0xCA, 0x53, 0xCA, 0x53] := by
  rfl

/-! ## Claim C4 — control-session cleanup -/

/-- C4 (counterexample): when the verb succeeds with 42 but the
`destroyControlSession` call in the `finally` block throws, the operation's
outcome is the destroy failure, not the verb's result: the destroy failure IS
re-thrown to the caller and replaces the operation's own result. -/
theorem c4_destroy_failure_replaces_result_counterexample :
    (withControlSession (α := Nat) (.ok (some 7)) (fun _ => .ok 42)
        (fun _ => .error "destroy failed")).outcome = .error "destroy failed" ∧
    (withControlSession (α := Nat) (.ok (some 7)) (fun _ => .ok 42)
        (fun _ => .error "destroy failed")).outcome ≠ .ok 42 := by
  refine ⟨rfl, fun h => by simp [withControlSession] at h⟩

/-- C4 (amended): on every exit path of a control-session operation, exactly
one `destroyControlSession` is issued for the successfully created session id
(and none when creation fails); when the destroy call itself succeeds, the
operation's own result or error is returned unchanged, but a failure of the
destroy call propagates to the caller and replaces the operation's outcome. -/
theorem c4_cleanup_amended {α : Type} (createResult : Except String (Option Nat))
    (action : Nat → Except String α) (destroyResult : Nat → Except String Unit) :
    ((withControlSession createResult action destroyResult).destroysIssued =
      match createResult with
      | .ok (some sid) => [sid]
      | _ => []) ∧
    (∀ sid, createResult = .ok (some sid) →
      (destroyResult sid = .ok () →
        (withControlSession createResult action destroyResult).outcome = action sid) ∧
      (∀ e, destroyResult sid = .error e →
        (withControlSession createResult action destroyResult).outcome = .error e)) := by
  constructor
  · match createResult with
    | .error e => rfl
    | .ok none => rfl
    | .ok (some sid) =>
      simp only [withControlSession]
      match destroyResult sid with
      | .error e => rfl
      | .ok _ => rfl
  · intro sid hc
    subst hc
    refine ⟨fun hd => ?_, fun e hd => ?_⟩
    · simp only [withControlSession, hd]
    · simp only [withControlSession, hd]

/-- Witness for C4 (amended) at concrete inputs. -/
theorem c4_cleanup_amended_witness :
    (withControlSession (α := Nat) (.ok (some 9)) (fun _ => .ok 5)
        (fun _ => .ok ())).destroysIssued = [9] ∧
    (withControlSession (α := Nat) (.ok (some 9)) (fun _ => .ok 5)
        (fun _ => .ok ())).outcome = .ok 5 :=
  ⟨(c4_cleanup_amended (.ok (some 9)) (fun _ => .ok 5) (fun _ => .ok ())).1,
   ((c4_cleanup_amended (.ok (some 9)) (fun _ => .ok 5) (fun _ => .ok ())).2 9 rfl).1 rfl⟩

/-! ## Claim C2 — decrypt-failure frames are queued, not discarded -/

/-- C2: with a session key established, the frame C0 01 C0 SLIP-decodes to a
single byte (length ≤ 10), so decryption fails; `checkForUnsolicitedMessage`
then returns false and `handleData` pushes the frame onto the response queue
(first conjunct) or hands it to a pending response waiter (second conjunct),
for every AES primitive, key and serial — contradicting the claim that such a
frame is discarded and counted in neither direction. -/
theorem c2_decrypt_failure_frame_is_queued
    (aesBlock : List Nat → List Nat → List Nat) (key serialBytes : List Nat) :
    handleData aesBlock (some key) serialBytes ⟨[], [], false, [], []⟩ [0xC0, 0x01, 0xC0] =
      ⟨[], [[0xC0, 0x01, 0xC0]], false, [], []⟩ ∧
    handleData aesBlock (some key) serialBytes ⟨[], [], true, [], []⟩ [0xC0, 0x01, 0xC0] =
      ⟨[], [], false, [[0xC0, 0x01, 0xC0]], []⟩ := by
  constructor
  · rfl
  · rfl

/-! ## Claim C10 — SLIP frame structure -/

/-- The escaped body never contains the frame delimiter: a 0xC0 input byte
becomes DB DC, a 0xDB input byte becomes DB DD, and any other byte is emitted
unchanged (and is not 0xC0). -/
theorem slipEncodeBody_not_mem_end (s : List Nat) : SLIP_END ∉ slipEncodeBody s := by
  induction s with
  | nil => simp [slipEncodeBody]
  | cons b rest ih =>
    simp only [slipEncodeBody, List.flatMap_cons, List.mem_append] at *
    rintro (hmem | hmem)
    · by_cases hb : b = SLIP_END
      · simp [hb, SLIP_END, SLIP_ESC, SLIP_ESC_END] at hmem
      · by_cases hb2 : b = SLIP_ESC
        · simp [hb, hb2, SLIP_END, SLIP_ESC, SLIP_ESC_ESC] at hmem
        · simp [hb, hb2] at hmem
          exact hb hmem.symm
    · exact ih hmem

/-- C10: for every byte string, the SLIP encoding starts with 0xC0, ends with
0xC0, and contains exactly two occurrences of 0xC0 (so no other occurrence:
every input 0xC0 is escaped to DB DC and every input 0xDB to DB DD), which is
what makes a 0xC0 boundary scan over concatenated frames split at true frame
boundaries. -/
theorem c10_slip_encode_delimits (s : List Nat) :
    (slipEncode s).head? = some SLIP_END ∧
    (slipEncode s).getLast? = some SLIP_END ∧
    (slipEncode s).count SLIP_END = 2 := by
  have hshape : slipEncode s = (SLIP_END :: slipEncodeBody s) ++ [SLIP_END] := by
    simp [slipEncode]
  refine ⟨rfl, ?_, ?_⟩
  · rw [hshape, List.getLast?_concat]
  · rw [hshape, List.count_append, List.count_cons_self]
    have h0 : (slipEncodeBody s).count SLIP_END = 0 :=
      List.count_eq_zero.mpr (slipEncodeBody_not_mem_end s)
    simp [h0]


/-! ## Claim C7 — AES-CTR involution -/

/-- Byte-wise xor with the same keystream twice is the identity on byte
lists. -/
theorem zipWith_xor_mod_double (l ks : List Nat) (hlen : l.length ≤ ks.length)
    (hl : ∀ b ∈ l, b < 256) (hks : ∀ b ∈ ks, b < 256) :
    List.zipWith (fun x k => (x ^^^ k) % 256)
      (List.zipWith (fun x k => (x ^^^ k) % 256) l ks) ks = l := by
  induction l generalizing ks with
  | nil => simp
  | cons x xs ih =>
    cases ks with
    | nil => simp at hlen
    | cons k kt =>
      have hx : x < 256 := hl x (by simp)
      have hk : k < 256 := hks k (by simp)
      have hxk : x ^^^ k < 256 := Nat.xor_lt_two_pow (n := 8) (by omega) (by omega)
      simp only [List.zipWith_cons_cons]
      congr 1
      · rw [Nat.mod_eq_of_lt hxk, Nat.xor_assoc, Nat.xor_self, Nat.xor_zero,
          Nat.mod_eq_of_lt hx]
      · exact ih kt (by simp only [List.length_cons] at hlen; omega)
          (fun b hb => hl b (by simp [hb])) (fun b hb => hks b (by simp [hb]))

/-- Every byte the CTR xor produces is below 256. -/
theorem zipWith_xor_mod_bytes (l ks : List Nat) :
    ∀ b ∈ List.zipWith (fun x k => (x ^^^ k) % 256) l ks, b < 256 := by
  induction l generalizing ks with
  | nil => simp
  | cons x xs ih =>
    cases ks with
    | nil => simp
    | cons k kt =>
      simp only [List.zipWith_cons_cons, List.mem_cons]
      rintro b (rfl | hb)
      · exact Nat.mod_lt _ (by norm_num)
      · exact ih kt b hb

/-- The per-block loop maps the empty buffer to the empty buffer. -/
theorem aesCtrGo_nil (aesBlock : List Nat → List Nat → List Nat) (key iv : List Nat) :
    aesCtrGo aesBlock key iv [] = [] := by
  rw [aesCtrGo]

/-- Unfolding of the per-block loop on a nonempty buffer. -/
theorem aesCtrGo_ne_nil (aesBlock : List Nat → List Nat → List Nat) (key iv : List Nat)
    (l : List Nat) (h : l ≠ []) :
    aesCtrGo aesBlock key iv l =
      (l.take 16).zipWith (fun x k => (x ^^^ k) % 256) (aesBlock key iv) ++
        aesCtrGo aesBlock key (incIv iv) (l.drop 16) := by
  match l with
  | [] => exact absurd rfl h
  | d :: ds => rw [aesCtrGo]

/-- Running the CTR keystream xor twice from the same counter returns the
original data, for any block primitive producing 16 bytes below 256 per
block. -/
theorem aesCtrGo_involution (aesBlock : List Nat → List Nat → List Nat)
    (hlen : ∀ k iv, (aesBlock k iv).length = 16)
    (hbytes : ∀ k iv, ∀ b ∈ aesBlock k iv, b < 256) (key : List Nat) :
    ∀ n (data : List Nat), data.length ≤ n → (∀ b ∈ data, b < 256) → ∀ iv,
      aesCtrGo aesBlock key iv (aesCtrGo aesBlock key iv data) = data := by
  intro n
  induction n with
  | zero =>
    intro data hn _ iv
    have : data = [] := List.eq_nil_of_length_eq_zero (by omega)
    subst this
    rw [aesCtrGo_nil, aesCtrGo_nil]
  | succ n ih =>
    intro data hn hdata iv
    rcases data with _ | ⟨d, ds⟩
    · rw [aesCtrGo_nil, aesCtrGo_nil]
    · have hne : (d :: ds : List Nat) ≠ [] := by simp
      have hkslen := hlen key iv
      have hksbytes := hbytes key iv
      rw [aesCtrGo_ne_nil aesBlock key iv _ hne]
      rcases le_or_lt (d :: ds).length 16 with hle | hlt
      · -- a single (possibly short) final block
        rw [List.drop_eq_nil_of_le hle, aesCtrGo_nil, List.append_nil,
          List.take_of_length_le hle]
        have hzlen : (List.zipWith (fun x k => (x ^^^ k) % 256) (d :: ds) (aesBlock key iv)).length ≤ 16 := by
          rw [List.length_zipWith, hkslen]
          omega
        have hzne : List.zipWith (fun x k => (x ^^^ k) % 256) (d :: ds) (aesBlock key iv) ≠ [] := by
          intro hcon
          have hlen2 := congrArg List.length hcon
          rw [List.length_zipWith, hkslen] at hlen2
          simp only [List.length_cons, List.length_nil] at hlen2
          omega
        rw [aesCtrGo_ne_nil aesBlock key iv _ hzne, List.take_of_length_le hzlen,
          List.drop_eq_nil_of_le hzlen, aesCtrGo_nil, List.append_nil]
        exact zipWith_xor_mod_double (d :: ds) (aesBlock key iv)
          (by rw [hkslen]; exact hle) hdata hksbytes
      · -- a full block followed by at least one more byte
        have hchunklen : (List.zipWith (fun x k => (x ^^^ k) % 256) ((d :: ds).take 16) (aesBlock key iv)).length = 16 := by
          rw [List.length_zipWith, List.length_take, hkslen]
          omega
        have houterne : List.zipWith (fun x k => (x ^^^ k) % 256) ((d :: ds).take 16) (aesBlock key iv) ++
            aesCtrGo aesBlock key (incIv iv) ((d :: ds).drop 16) ≠ [] := by
          intro hcon
          have hlen2 := congrArg List.length hcon
          rw [List.length_append, hchunklen] at hlen2
          simp at hlen2
        rw [aesCtrGo_ne_nil aesBlock key iv _ houterne, List.take_left' hchunklen,
          List.drop_left' hchunklen,
          zipWith_xor_mod_double ((d :: ds).take 16) (aesBlock key iv)
            (by rw [hkslen, List.length_take]; omega)
            (fun b hb => hdata b (List.mem_of_mem_take hb)) hksbytes,
          ih ((d :: ds).drop 16)
            (by rw [List.length_drop]; simp only [List.length_cons] at hn ⊢; omega)
            (fun b hb => hdata b (List.mem_of_mem_drop hb)) (incIv iv),
          List.take_append_drop]
/-- C7: for every key of 16, 24 or 32 bytes, every nonce, every serial and all
byte data, applying `aesCtr` twice with the same key, nonce and serial returns
the original data — for any AES block primitive that yields 16 keystream bytes
per counter block (as the crypto library's AES-ECB does). -/
theorem c7_aes_ctr_involution (aesBlock : List Nat → List Nat → List Nat)
    (hblocklen : ∀ k iv, (aesBlock k iv).length = 16)
    (hblockbytes : ∀ k iv, ∀ b ∈ aesBlock k iv, b < 256)
    (data key nonce serialBytes : List Nat) (hkey : validAesKeySize key.length)
    (hdata : ∀ b ∈ data, b < 256) :
    (aesCtr aesBlock data key nonce serialBytes).bind
      (fun c => aesCtr aesBlock c key nonce serialBytes) = .ok data := by
  simp only [aesCtr, if_pos hkey]
  exact congrArg Except.ok (aesCtrGo_involution aesBlock hblocklen hblockbytes key
    data.length data (Nat.le_refl _) hdata _)

/-- Witness for C7 at a concrete block function, key, nonce, serial and
data. -/
theorem c7_aes_ctr_involution_witness :
    validAesKeySize (List.replicate 16 0).length ∧
    (aesCtr (fun _ _ => List.replicate 16 7) [1, 2, 3, 200] (List.replicate 16 0)
        [9, 9, 9, 9, 9, 9, 9, 9] [1, 2, 3, 4, 5, 6]).bind
      (fun c => aesCtr (fun _ _ => List.replicate 16 7) c (List.replicate 16 0)
        [9, 9, 9, 9, 9, 9, 9, 9] [1, 2, 3, 4, 5, 6]) = .ok [1, 2, 3, 200] :=
  ⟨by decide,
   c7_aes_ctr_involution (fun _ _ => List.replicate 16 7)
     (fun _ _ => by simp)
     (fun _ _ b hb => by rw [List.eq_of_mem_replicate hb]; omega)
     [1, 2, 3, 200] (List.replicate 16 0) [9, 9, 9, 9, 9, 9, 9, 9] [1, 2, 3, 4, 5, 6]
     (by decide) (by decide)⟩

/-! ## Claim C5 — CRC round-trip and single-bit error detection -/


theorem crcBitStep_lt (c : Nat) (h : c < 2 ^ 16) : crcBitStep c < 2 ^ 16 := by
  unfold crcBitStep
  split
  · exact Nat.xor_lt_two_pow (n := 16) (by omega) (by omega)
  · omega

theorem crcBitStep_inj (c1 c2 : Nat) (h1 : c1 < 2 ^ 16) (h2 : c2 < 2 ^ 16)
    (heq : crcBitStep c1 = crcBitStep c2) : c1 = c2 := by
  have key : ∀ a b : Nat, a < 2 ^ 16 → b < 2 ^ 16 → a % 2 = 1 → b % 2 ≠ 1 →
      (a / 2) ^^^ 0xA001 ≠ b / 2 := by
    intro a b ha hb hpa hpb hcon
    have hd1 : a / 2 < 2 ^ 15 := by omega
    have hd2 : b / 2 < 2 ^ 15 := by omega
    have hbit : ((a / 2) ^^^ 0xA001).testBit 15 = true := by
      rw [Nat.testBit_xor, Nat.testBit_eq_false_of_lt hd1]
      decide
    rw [hcon, Nat.testBit_eq_false_of_lt hd2] at hbit
    exact Bool.noConfusion hbit
  unfold crcBitStep at heq
  by_cases p1 : c1 % 2 = 1 <;> by_cases p2 : c2 % 2 = 1
  · rw [if_pos p1, if_pos p2] at heq
    have hdiv : c1 / 2 = c2 / 2 := by
      have h3 := congrArg (fun x => x ^^^ 0xA001) heq
      simpa [Nat.xor_assoc, Nat.xor_self, Nat.xor_zero] using h3
    omega
  · rw [if_pos p1, if_neg p2] at heq
    exact absurd heq (key c1 c2 h1 h2 p1 p2)
  · rw [if_neg p1, if_pos p2] at heq
    exact absurd heq.symm (key c2 c1 h2 h1 p2 p1)
  · rw [if_neg p1, if_neg p2] at heq
    omega

theorem crcBitStep_iter_lt (m c : Nat) (h : c < 2 ^ 16) : crcBitStep^[m] c < 2 ^ 16 := by
  induction m generalizing c with
  | zero => simpa using h
  | succ m ih =>
    rw [Function.iterate_succ_apply]
    exact ih _ (crcBitStep_lt c h)

theorem crcBitStep_iter_inj (m c1 c2 : Nat) (h1 : c1 < 2 ^ 16) (h2 : c2 < 2 ^ 16)
    (heq : crcBitStep^[m] c1 = crcBitStep^[m] c2) : c1 = c2 := by
  induction m generalizing c1 c2 with
  | zero => simpa using heq
  | succ m ih =>
    rw [Function.iterate_succ_apply, Function.iterate_succ_apply] at heq
    exact crcBitStep_inj c1 c2 h1 h2
      (ih _ _ (crcBitStep_lt c1 h1) (crcBitStep_lt c2 h2) heq)

theorem crcByteStep_lt (c b : Nat) (hc : c < 2 ^ 16) (hb : b < 256) :
    crcByteStep c b < 2 ^ 16 := by
  unfold crcByteStep
  exact crcBitStep_iter_lt 8 _ (Nat.xor_lt_two_pow (n := 16) (by omega) (by omega))

theorem crcByteStep_inj (c1 c2 b : Nat) (h1 : c1 < 2 ^ 16) (h2 : c2 < 2 ^ 16)
    (hb : b < 256) (heq : crcByteStep c1 b = crcByteStep c2 b) : c1 = c2 := by
  unfold crcByteStep at heq
  have hx1 : c1 ^^^ b < 2 ^ 16 := Nat.xor_lt_two_pow (by omega) (by omega)
  have hx2 : c2 ^^^ b < 2 ^ 16 := Nat.xor_lt_two_pow (by omega) (by omega)
  have := crcBitStep_iter_inj 8 _ _ hx1 hx2 heq
  have h3 := congrArg (fun x => x ^^^ b) this
  simpa [Nat.xor_assoc, Nat.xor_self, Nat.xor_zero] using h3

theorem crcFold_lt (l : List Nat) (c : Nat) (hc : c < 2 ^ 16) (hl : ∀ b ∈ l, b < 256) :
    l.foldl crcByteStep c < 2 ^ 16 := by
  induction l generalizing c with
  | nil => simpa using hc
  | cons b bs ih =>
    rw [List.foldl_cons]
    exact ih _ (crcByteStep_lt c b hc (hl b (by simp)))
      (fun x hx => hl x (by simp [hx]))

theorem crcFold_inj (l : List Nat) (c1 c2 : Nat) (h1 : c1 < 2 ^ 16) (h2 : c2 < 2 ^ 16)
    (hl : ∀ b ∈ l, b < 256) (heq : l.foldl crcByteStep c1 = l.foldl crcByteStep c2) :
    c1 = c2 := by
  induction l generalizing c1 c2 with
  | nil => simpa using heq
  | cons b bs ih =>
    rw [List.foldl_cons, List.foldl_cons] at heq
    have hb : b < 256 := hl b (by simp)
    exact crcByteStep_inj c1 c2 b h1 h2 hb
      (ih _ _ (crcByteStep_lt c1 b h1 hb) (crcByteStep_lt c2 b h2 hb)
        (fun x hx => hl x (by simp [hx])) heq)

theorem crc16_lt (l : List Nat) (hl : ∀ b ∈ l, b < 256) : crc16 l < 2 ^ 16 :=
  crcFold_lt l 0xFFFF (by omega) hl

/-- Messages that differ in exactly one byte have different CRCs. -/
theorem crc16_ne_of_single_byte_diff (pre suf : List Nat) (b1 b2 : Nat)
    (hpre : ∀ x ∈ pre, x < 256) (hsuf : ∀ x ∈ suf, x < 256)
    (hb1 : b1 < 256) (hb2 : b2 < 256) (hne : b1 ≠ b2) :
    crc16 (pre ++ b1 :: suf) ≠ crc16 (pre ++ b2 :: suf) := by
  intro hcon
  unfold crc16 at hcon
  rw [List.foldl_append, List.foldl_append, List.foldl_cons, List.foldl_cons] at hcon
  have hs : pre.foldl crcByteStep 0xFFFF < 2 ^ 16 := crcFold_lt pre 0xFFFF (by omega) hpre
  have hstep := crcFold_inj suf _ _
    (crcByteStep_lt _ b1 hs hb1) (crcByteStep_lt _ b2 hs hb2) hsuf hcon
  unfold crcByteStep at hstep
  have hx1 : pre.foldl crcByteStep 0xFFFF ^^^ b1 < 2 ^ 16 := Nat.xor_lt_two_pow (by omega) (by omega)
  have hx2 : pre.foldl crcByteStep 0xFFFF ^^^ b2 < 2 ^ 16 := Nat.xor_lt_two_pow (by omega) (by omega)
  have hxor := crcBitStep_iter_inj 8 _ _ hx1 hx2 hstep
  have h3 := congrArg (fun x => pre.foldl crcByteStep 0xFFFF ^^^ x) hxor
  simp only [← Nat.xor_assoc, Nat.xor_self, Nat.zero_xor] at h3
  exact hne h3


/-- `verifyCrc` on a nonempty payload with an explicit two-byte tail compares
the big-endian tail with the payload's CRC. -/
theorem verifyCrc_concat (s : List Nat) (hi lo : Nat) (hs : s ≠ []) (hlo : lo < 256) :
    verifyCrc (s ++ [hi, lo]) = (hi * 256 + lo == crc16 s) := by
  have hpos : 0 < s.length := List.length_pos.mpr hs
  have hlen : (s ++ [hi, lo]).length = s.length + 2 := by simp
  unfold verifyCrc
  rw [if_neg (by omega)]
  have h1 : (s ++ [hi, lo]).length - 2 = s.length := by omega
  have htake : (s ++ [hi, lo]).take ((s ++ [hi, lo]).length - 2) = s := by
    rw [h1]
    exact List.take_left s [hi, lo]
  have hgd1 : (s ++ [hi, lo]).getD ((s ++ [hi, lo]).length - 2) 0 = hi := by
    rw [h1, List.getD_append_right s [hi, lo] 0 s.length (Nat.le_refl _), Nat.sub_self]
    rfl
  have hgd2 : (s ++ [hi, lo]).getD ((s ++ [hi, lo]).length - 1) 0 = lo := by
    have h2 : (s ++ [hi, lo]).length - 1 = s.length + 1 := by omega
    rw [h2, List.getD_append_right s [hi, lo] 0 (s.length + 1) (by omega),
      Nat.add_sub_cancel_left]
    rfl
  rw [htake, hgd1, hgd2, shl8_or_lo hi lo hlo]

/-- The explicit shape of `appendCrc` in terms of the CRC's base-256 digits. -/
theorem appendCrc_eq (s : List Nat) (hbytes : ∀ b ∈ s, b < 256) :
    appendCrc s = s ++ [crc16 s / 256, crc16 s % 256] := by
  have hcrc : crc16 s < 2 ^ 16 := crc16_lt s hbytes
  unfold appendCrc
  congr 2
  · rw [Nat.shiftRight_eq_div_pow]
    have h255 : crc16 s / 2 ^ 8 &&& 2 ^ 8 - 1 = crc16 s / 2 ^ 8 % 2 ^ 8 :=
      Nat.and_pow_two_sub_one_eq_mod _ 8
    norm_num at h255 ⊢
    omega
  · have h255 : crc16 s &&& 2 ^ 8 - 1 = crc16 s % 2 ^ 8 :=
      Nat.and_pow_two_sub_one_eq_mod _ 8
    norm_num at h255 ⊢
    omega

/-- C5 (counterexample): for the empty byte string, `verifyCrc(appendCrc([]))`
is false (the appended frame is only two bytes long, below `verifyCrc`'s
three-byte minimum), refuting the claim's universal quantification over every
byte string. -/
theorem c5_crc_empty_counterexample : verifyCrc (appendCrc []) = false := by
  decide

/-- C5 (amended): for every nonempty byte string s, `verifyCrc(appendCrc(s))`
is true, and flipping any single bit of any byte of `appendCrc(s)` makes
`verifyCrc` return false (a flip in the payload changes the computed CRC — the
CRC state transition is injective per byte — and a flip in the stored CRC tail
changes the stored value while the computed one stays). -/
theorem c5_crc_roundtrip_amended (s : List Nat) (hs : s ≠ [])
    (hbytes : ∀ b ∈ s, b < 256) :
    verifyCrc (appendCrc s) = true ∧
    ∀ pos, pos < (appendCrc s).length → ∀ j, j < 8 →
      verifyCrc (flipBit (appendCrc s) pos j) = false := by
  have hcrc : crc16 s < 2 ^ 16 := crc16_lt s hbytes
  have hpos0 : 0 < s.length := List.length_pos.mpr hs
  have happ := appendCrc_eq s hbytes
  have hhi : crc16 s / 256 < 256 := by omega
  have hlo : crc16 s % 256 < 256 := by omega
  constructor
  · rw [happ, verifyCrc_concat s _ _ hs hlo]
    have hrecompose : crc16 s / 256 * 256 + crc16 s % 256 = crc16 s := by omega
    rw [hrecompose]
    exact beq_self_eq_true _
  · intro pos hpos j hj
    have hm2 : (1 <<< j) = 2 ^ j := by rw [Nat.shiftLeft_eq, one_mul]
    have hmlt : (1 <<< j) < 256 := by
      rw [hm2]
      calc 2 ^ j ≤ 2 ^ 7 := Nat.pow_le_pow_right (by norm_num) (by omega)
      _ < 256 := by norm_num
    have hmne : (1 <<< j) ≠ 0 := by rw [hm2]; positivity
    have hxor_ne : ∀ b : Nat, b ^^^ (1 <<< j) ≠ b := by
      intro b hcon
      apply hmne
      have h3 := congrArg (fun x => b ^^^ x) hcon.symm
      simp only [← Nat.xor_assoc, Nat.xor_self, Nat.zero_xor] at h3
      exact h3.symm
    rw [happ] at hpos ⊢
    simp only [List.length_append, List.length_cons, List.length_nil] at hpos
    by_cases hp1 : pos < s.length
    · -- the flip lands in the payload: the computed CRC changes
      unfold flipBit
      rw [List.getD_append _ _ _ _ hp1, List.set_append_left _ _ hp1]
      have hb : s.getD pos 0 = s[pos] := List.getD_eq_getElem s 0 hp1
      have hbmem : s[pos] ∈ s := List.getElem_mem hp1
      have hblt : s[pos] < 256 := hbytes _ hbmem
      have hsplit : s.set pos (s.getD pos 0 ^^^ (1 <<< j)) =
          s.take pos ++ (s[pos] ^^^ (1 <<< j)) :: s.drop (pos + 1) := by
        rw [hb]
        exact List.set_eq_take_cons_drop _ hp1
      have hlen' : (s.set pos (s.getD pos 0 ^^^ (1 <<< j))).length = s.length := by
        simp
      have hne' : s.set pos (s.getD pos 0 ^^^ (1 <<< j)) ≠ [] := by
        intro hcon
        rw [hcon] at hlen'
        simp only [List.length_nil] at hlen'
        omega
      rw [verifyCrc_concat _ _ _ hne' hlo]
      have hcrcne : crc16 (s.set pos (s.getD pos 0 ^^^ (1 <<< j))) ≠ crc16 s := by
        rw [hsplit]
        conv_rhs => rw [← List.take_append_drop pos s, ← List.get_drop_eq_drop s pos hp1]
        exact crc16_ne_of_single_byte_diff (s.take pos) (s.drop (pos + 1)) _ _
          (fun x hx => hbytes x (List.mem_of_mem_take hx))
          (fun x hx => hbytes x (List.mem_of_mem_drop hx))
          (Nat.xor_lt_two_pow (n := 8) (by omega) (by omega)) hblt
          (hxor_ne s[pos])
      have hrecompose : crc16 s / 256 * 256 + crc16 s % 256 = crc16 s := by omega
      rw [hrecompose]
      exact beq_false_of_ne hcrcne.symm
    · -- the flip lands in the stored CRC tail: the stored value changes
      have hp2 : pos = s.length ∨ pos = s.length + 1 := by omega
      unfold flipBit
      rcases hp2 with hp2 | hp2
      · subst hp2
        rw [List.getD_append_right s _ 0 s.length (Nat.le_refl _), Nat.sub_self,
          List.set_append_right _ _ (Nat.le_refl _), Nat.sub_self]
        show verifyCrc (s ++ [crc16 s / 256 ^^^ (1 <<< j), crc16 s % 256]) = false
        rw [verifyCrc_concat s _ _ hs hlo]
        apply beq_false_of_ne
        have hxne := hxor_ne (crc16 s / 256)
        omega
      · subst hp2
        rw [List.getD_append_right s _ 0 (s.length + 1) (by omega),
          Nat.add_sub_cancel_left, List.set_append_right _ _ (by omega),
          Nat.add_sub_cancel_left]
        show verifyCrc (s ++ [crc16 s / 256, crc16 s % 256 ^^^ (1 <<< j)]) = false
        rw [verifyCrc_concat s _ _ hs
          (Nat.xor_lt_two_pow (n := 8) (by omega) (by omega))]
        apply beq_false_of_ne
        have hxne := hxor_ne (crc16 s % 256)
        have hxlt : crc16 s % 256 ^^^ (1 <<< j) < 256 :=
          Nat.xor_lt_two_pow (n := 8) (by omega) (by omega)
        omega

/-- Witness for C5 (amended) at the one-byte string 0x00. -/
theorem c5_crc_roundtrip_amended_witness :
    ([0x00] : List Nat) ≠ [] ∧
    (verifyCrc (appendCrc [0x00]) = true ∧
     ∀ pos, pos < (appendCrc [0x00]).length → ∀ j, j < 8 →
       verifyCrc (flipBit (appendCrc [0x00]) pos j) = false) :=
  ⟨by decide, c5_crc_roundtrip_amended [0x00] (by decide) (by decide)⟩

/-! ## Claim C9 — batch response splitting -/

theorem splitBatchGo_stop (resp : List Nat) (name : String) (L t : Nat)
    (fuel offset : Nat) (h : resp.length < offset + L) :
    splitBatchGo messageTemplates resp name L t fuel offset = [] := by
  cases fuel with
  | zero => rfl
  | succ f =>
    rw [splitBatchGo]
    rw [if_neg (by omega)]

theorem getD_drop_add (l : List Nat) (n i d : Nat) : (l.drop n).getD i d = l.getD (n + i) d := by
  simp [List.getD, List.getElem?_drop]

/-- The splitting loop maps separator-joined fixed-length bodies to one
message per body. -/
theorem splitBatchGo_sepJoin (name : String) (L t : Nat) (hL : 0 < L)
    (resp : List Nat) (bodies : List (List Nat))
    (hlenb : ∀ b ∈ bodies, b.length = L)
    (hid : ∀ b ∈ bodies,
      ((List.lookup name messageTemplates).bind (fun tpl => tpl.msgIdBytes.head?)).getD 0 ≠ 0 →
      b.getD 0 0 = ((List.lookup name messageTemplates).bind (fun tpl => tpl.msgIdBytes.head?)).getD 0) :
    ∀ (offset fuel : Nat), resp.drop offset = sepJoin t bodies →
      resp.length - offset < fuel →
      splitBatchGo messageTemplates resp name L t fuel offset =
        bodies.map (fun b => ⟨name, b, b.getD 3 0⟩) := by
  induction bodies with
  | nil =>
    intro offset fuel hdrop hfuel
    have hdl : resp.length - offset = 0 := by
      have := congrArg List.length hdrop
      simpa [sepJoin] using this
    rw [List.map_nil]
    exact splitBatchGo_stop resp name L t fuel offset (by omega)
  | cons b more ih =>
    intro offset fuel hdrop hfuel
    have hbl : b.length = L := hlenb b (by simp)
    have hdl := congrArg List.length hdrop
    rw [List.length_drop] at hdl
    have hcheck : ¬ (((List.lookup name messageTemplates).bind (fun tpl => tpl.msgIdBytes.head?)).getD 0 ≠ 0 ∧
        b.getD 0 0 ≠ ((List.lookup name messageTemplates).bind (fun tpl => tpl.msgIdBytes.head?)).getD 0) := by
      rintro ⟨h1, h2⟩
      exact h2 (hid b (by simp) h1)
    match more with
    | [] =>
      have hsj : sepJoin t [b] = b := rfl
      rw [hsj] at hdrop
      have hlen2 : resp.length - offset = L := by rw [hdl, hsj, hbl]
      have hfpos : 0 < fuel := by omega
      match fuel with
      | f + 1 =>
        rw [splitBatchGo]
        rw [if_pos (by omega)]
        have hmsg : (resp.drop offset).take L = b := by
          rw [hdrop, ← hbl]
          exact List.take_length b
        simp only [hmsg]
        rw [if_neg hcheck, if_neg (by omega)]
        rw [splitBatchGo_stop resp name L t f (offset + L) (by omega)]
        rfl
    | b2 :: rest =>
      have hsj : sepJoin t (b :: b2 :: rest) = b ++ t :: sepJoin t (b2 :: rest) := rfl
      rw [hsj] at hdrop
      have hlen2 : resp.length - offset = L + 1 + (sepJoin t (b2 :: rest)).length := by
        rw [hdl, hsj]
        simp [hbl]
        omega
      have hfpos : 0 < fuel := by omega
      match fuel with
      | f + 1 =>
        rw [splitBatchGo]
        rw [if_pos (by omega)]
        have hmsg : (resp.drop offset).take L = b := by
          rw [hdrop]
          exact List.take_left' hbl
        simp only [hmsg]
        rw [if_neg hcheck, if_pos (by omega)]
        have hsep : resp.getD (offset + L) 0 = t := by
          rw [← getD_drop_add, hdrop, List.getD_append_right b _ 0 L (by omega), hbl,
            Nat.sub_self]
          rfl
        rw [if_pos hsep]
        have hdrop2 : resp.drop (offset + L + 1) = sepJoin t (b2 :: rest) := by
          rw [← List.drop_drop, ← List.drop_drop, hdrop, List.drop_left' hbl]
          rfl
        rw [ih (fun x hx => hlenb x (by simp [hx]))
          (fun x hx => hid x (by simp [hx])) (offset + L + 1) f hdrop2 (by omega)]
        rfl

/-- C9: splitting a well-formed batch of N same-type embedded bodies (header
A0 EE EE, type-indicator byte, fixed-length bodies of the registered length
separated by the type-indicator byte, each starting with the template's
message-id byte) yields exactly one message per body, whose bytes are that
body and whose objectId is the body's byte at offset 3. -/
theorem c9_batch_split (name : String) (L t : Nat) (bodies : List (List Nat))
    (hreg : List.lookup name BATCH_PAYLOAD_LENGTHS = some L) (hL : 0 < L)
    (hlenb : ∀ b ∈ bodies, b.length = L)
    (hid : ∀ b ∈ bodies,
      ((List.lookup name messageTemplates).bind (fun tpl => tpl.msgIdBytes.head?)).getD 0 ≠ 0 →
      b.getD 0 0 = ((List.lookup name messageTemplates).bind (fun tpl => tpl.msgIdBytes.head?)).getD 0) :
    splitBatchResponse messageTemplates (mkBatch t bodies) name =
      bodies.map (fun b => ⟨name, b, b.getD 3 0⟩) ∧
    (splitBatchResponse messageTemplates (mkBatch t bodies) name).length = bodies.length := by
  have hmain : splitBatchResponse messageTemplates (mkBatch t bodies) name =
      bodies.map (fun b => ⟨name, b, b.getD 3 0⟩) := by
    unfold splitBatchResponse
    have hlen4 : (mkBatch t bodies).length = 4 + (sepJoin t bodies).length := by
      simp [mkBatch]
      omega
    rw [if_neg (by omega)]
    have hget0 : (mkBatch t bodies).getD 0 0 = 0xA0 := rfl
    have hget1 : (mkBatch t bodies).getD 1 0 = 0xEE := rfl
    have hget2 : (mkBatch t bodies).getD 2 0 = 0xEE := rfl
    have hcond : ¬ ((mkBatch t bodies).getD 0 0 ≠ 0xA0 ∨ (mkBatch t bodies).getD 1 0 ≠ 0xEE ∨
        (mkBatch t bodies).getD 2 0 ≠ 0xEE) := by
      rw [hget0, hget1, hget2]
      simp
    rw [if_neg hcond, hreg]
    show (if 0 < L then
        splitBatchGo messageTemplates (mkBatch t bodies) name L ((mkBatch t bodies).getD 3 0)
          ((mkBatch t bodies).length + 1) 4
      else []) = _
    rw [if_pos hL]
    have hget3 : (mkBatch t bodies).getD 3 0 = t := rfl
    rw [hget3]
    have hdrop4 : (mkBatch t bodies).drop 4 = sepJoin t bodies := rfl
    exact splitBatchGo_sepJoin name L t hL (mkBatch t bodies) bodies hlenb hid 4
      ((mkBatch t bodies).length + 1) hdrop4 (by omega)
  exact ⟨hmain, by rw [hmain, List.length_map]⟩

/-- Witness for C9: the S7 sample batch A0 EE EE 07 31 01 00 05 04 00 00 07
31 01 00 06 00 00 00 splits into two zoneStatus messages with object ids 5
and 6. -/
theorem c9_batch_split_witness :
    splitBatchResponse messageTemplates
      [0xA0, 0xEE, 0xEE, 0x07, 0x31, 0x01, 0x00, 0x05, 0x04, 0x00, 0x00,
       0x07, 0x31, 0x01, 0x00, 0x06, 0x00, 0x00, 0x00] "zoneStatus" =
      [⟨"zoneStatus", [0x31, 0x01, 0x00, 0x05, 0x04, 0x00, 0x00], 5⟩,
       ⟨"zoneStatus", [0x31, 0x01, 0x00, 0x06, 0x00, 0x00, 0x00], 6⟩] := by
  have h := (c9_batch_split "zoneStatus" 7 0x07
    [[0x31, 0x01, 0x00, 0x05, 0x04, 0x00, 0x00], [0x31, 0x01, 0x00, 0x06, 0x00, 0x00, 0x00]]
    (by decide) (by decide) (by decide) (by decide)).1
  rw [show ([0xA0, 0xEE, 0xEE, 0x07, 0x31, 0x01, 0x00, 0x05, 0x04, 0x00, 0x00,
       0x07, 0x31, 0x01, 0x00, 0x06, 0x00, 0x00, 0x00] : List Nat) = mkBatch 0x07
      [[0x31, 0x01, 0x00, 0x05, 0x04, 0x00, 0x00], [0x31, 0x01, 0x00, 0x06, 0x00, 0x00, 0x00]]
      from rfl]
  rw [h]
  rfl


/-! ## Claim C3 — the arm polling state machine -/

theorem faultStatus_not_success (st : SetType) : faultStatus st ∉ successStatuses st := by
  cases st <;> decide

theorem activeStatus_not_success (st : SetType) : activeStatus st ∉ successStatuses st := by
  cases st <;> decide

theorem activeStatus_ne_fault (st : SetType) : activeStatus st ≠ faultStatus st := by
  cases st <;> decide

theorem armPollFrom_skip (st : SetType) (force : Bool) (pr : Nat → List Nat)
    (ir : Nat → Except String (List Nat)) (i : Nat) (fo : Bool) (paf : Nat)
    (ls : Int) (fs rs : Nat) (hi : i < 60) (hskip : skippedPoll (pr i)) :
    armPollFrom st force pr ir i fo paf ls fs rs =
      armPollFrom st force pr ir (i + 1) fo paf ls fs rs := by
  unfold armPollFrom
  rw [show 60 - i = (60 - (i + 1)) + 1 from by omega]
  simp only [armPollGo]
  rw [if_pos hi]
  rcases hskip with h | h
  · rw [if_pos h]
  · by_cases hl : (pr i).length < 5
    · rw [if_pos hl]
    · rw [if_neg hl, if_pos (by simp [h])]

theorem armPollFrom_success (st : SetType) (force : Bool) (pr : Nat → List Nat)
    (ir : Nat → Except String (List Nat)) (i : Nat) (fo : Bool) (paf : Nat)
    (ls : Int) (fs rs : Nat) (stId : Int) (hi : i < 60)
    (hlen : ¬ (pr i).length < 5)
    (htype : isMessageType messageTemplates (pr i) "controlSessionStatus" 1 = true)
    (hparse : getProperty messageTemplates "controlSessionStatus" ((pr i).drop 1) "stateId" =
      .ok (.num stId))
    (hsucc : stId ∈ successStatuses st) :
    armPollFrom st force pr ir i fo paf ls fs rs = ⟨.success, fs, rs⟩ := by
  unfold armPollFrom
  rw [show 60 - i = (60 - (i + 1)) + 1 from by omega]
  simp only [armPollGo]
  rw [if_pos hi, if_neg hlen, if_neg (by simp [htype]), hparse]
  simp only []
  rw [if_pos hsucc]

theorem armPollFrom_fault_plain (st : SetType) (pr : Nat → List Nat)
    (ir : Nat → Except String (List Nat)) (i : Nat) (paf : Nat)
    (ls : Int) (fs rs : Nat) (stId : Int) (hi : i < 60)
    (hlen : ¬ (pr i).length < 5)
    (htype : isMessageType messageTemplates (pr i) "controlSessionStatus" 1 = true)
    (hparse : getProperty messageTemplates "controlSessionStatus" ((pr i).drop 1) "stateId" =
      .ok (.num stId))
    (hfault : stId = faultStatus st) :
    armPollFrom st false pr ir i false paf ls fs rs =
      ⟨.armFaults (readArmIssues ir), fs, rs⟩ := by
  unfold armPollFrom
  rw [show 60 - i = (60 - (i + 1)) + 1 from by omega]
  simp only [armPollGo]
  rw [if_pos hi, if_neg hlen, if_neg (by simp [htype]), hparse]
  simp only []
  rw [if_neg (hfault ▸ faultStatus_not_success st), if_pos hfault]
  simp

theorem armPollFrom_force_send (st : SetType) (pr : Nat → List Nat)
    (ir : Nat → Except String (List Nat)) (i : Nat) (paf : Nat)
    (ls : Int) (fs rs : Nat) (stId : Int) (hi : i < 60)
    (hlen : ¬ (pr i).length < 5)
    (htype : isMessageType messageTemplates (pr i) "controlSessionStatus" 1 = true)
    (hparse : getProperty messageTemplates "controlSessionStatus" ((pr i).drop 1) "stateId" =
      .ok (.num stId))
    (hfail : stId = faultStatus st ∨ stId = activeStatus st) :
    armPollFrom st true pr ir i false paf ls fs rs =
      armPollFrom st true pr ir (i + 1) true 0 stId (fs + 1) rs := by
  unfold armPollFrom
  rw [show 60 - i = (60 - (i + 1)) + 1 from by omega]
  simp only [armPollGo]
  rw [if_pos hi, if_neg hlen, if_neg (by simp [htype]), hparse]
  simp only []
  rcases hfail with h | h
  · rw [if_neg (h ▸ faultStatus_not_success st), if_pos h]
    simp
  · rw [if_neg (h ▸ activeStatus_not_success st), if_neg (by rw [h]; exact activeStatus_ne_fault st),
      if_pos h]
    simp

theorem armPollFrom_forced_continue (st : SetType) (force : Bool) (pr : Nat → List Nat)
    (ir : Nat → Except String (List Nat)) (i : Nat) (paf : Nat)
    (ls : Int) (fs rs : Nat) (stId : Int) (hi : i < 60)
    (hlen : ¬ (pr i).length < 5)
    (htype : isMessageType messageTemplates (pr i) "controlSessionStatus" 1 = true)
    (hparse : getProperty messageTemplates "controlSessionStatus" ((pr i).drop 1) "stateId" =
      .ok (.num stId))
    (hfail : stId = faultStatus st ∨ stId = activeStatus st)
    (hpaf : paf + 1 < 10) :
    armPollFrom st force pr ir i true paf ls fs rs =
      armPollFrom st force pr ir (i + 1) true (paf + 1) stId fs rs := by
  unfold armPollFrom
  rw [show 60 - i = (60 - (i + 1)) + 1 from by omega]
  simp only [armPollGo]
  rw [if_pos hi, if_neg hlen, if_neg (by simp [htype]), hparse]
  simp only []
  rcases hfail with h | h
  · rw [if_neg (h ▸ faultStatus_not_success st), if_pos h, if_neg (by simp), if_pos trivial,
      if_neg (by omega)]
  · rw [if_neg (h ▸ activeStatus_not_success st), if_neg (by rw [h]; exact activeStatus_ne_fault st),
      if_pos h, if_neg (by simp), if_pos trivial, if_neg (by omega)]

theorem armPollFrom_forced_fail (st : SetType) (force : Bool) (pr : Nat → List Nat)
    (ir : Nat → Except String (List Nat)) (i : Nat) (paf : Nat)
    (ls : Int) (fs rs : Nat) (stId : Int) (hi : i < 60)
    (hlen : ¬ (pr i).length < 5)
    (htype : isMessageType messageTemplates (pr i) "controlSessionStatus" 1 = true)
    (hparse : getProperty messageTemplates "controlSessionStatus" ((pr i).drop 1) "stateId" =
      .ok (.num stId))
    (hfail : stId = faultStatus st ∨ stId = activeStatus st)
    (hpaf : 10 ≤ paf + 1) :
    armPollFrom st force pr ir i true paf ls fs rs = ⟨.forceArmFailed stId, fs, rs⟩ := by
  unfold armPollFrom
  rw [show 60 - i = (60 - (i + 1)) + 1 from by omega]
  simp only [armPollGo]
  rw [if_pos hi, if_neg hlen, if_neg (by simp [htype]), hparse]
  simp only []
  rcases hfail with h | h
  · rw [if_neg (h ▸ faultStatus_not_success st), if_pos h, if_neg (by simp), if_pos trivial,
      if_pos hpaf]
  · rw [if_neg (h ▸ activeStatus_not_success st), if_neg (by rw [h]; exact activeStatus_ne_fault st),
      if_pos h, if_neg (by simp), if_pos trivial, if_pos hpaf]

theorem armPoll_skip_prefix (st : SetType) (force : Bool) (pr : Nat → List Nat)
    (ir : Nat → Except String (List Nat)) (i : Nat) (hi : i ≤ 60)
    (hskips : ∀ j, j < i → skippedPoll (pr j)) :
    armPoll st force pr ir = armPollFrom st force pr ir i false 0 0 0 0 := by
  induction i with
  | zero => rfl
  | succ n ih =>
    rw [ih (by omega) (fun j hj => hskips j (by omega)),
      armPollFrom_skip st force pr ir n false 0 0 0 0 (by omega) (hskips n (by omega))]

theorem armPollFrom_forced_fail_run (st : SetType) (force : Bool) (pr : Nat → List Nat)
    (ir : Nat → Except String (List Nat)) (sts : Nat → Int) (m : Nat) :
    ∀ i paf ls fs rs, i + m < 60 → paf + m + 1 = 10 →
    (∀ j, i ≤ j → j ≤ i + m → ¬ (pr j).length < 5 ∧
        isMessageType messageTemplates (pr j) "controlSessionStatus" 1 = true ∧
        getProperty messageTemplates "controlSessionStatus" ((pr j).drop 1) "stateId" =
          .ok (.num (sts j)) ∧
        (sts j = faultStatus st ∨ sts j = activeStatus st)) →
    armPollFrom st force pr ir i true paf ls fs rs =
      ⟨.forceArmFailed (sts (i + m)), fs, rs⟩ := by
  induction m with
  | zero =>
    intro i paf ls fs rs hi hpaf hall
    obtain ⟨h1, h2, h3, h4⟩ := hall i le_rfl (by omega)
    rw [armPollFrom_forced_fail st force pr ir i paf ls fs rs (sts i) (by omega) h1 h2 h3 h4
      (by omega)]
    simp
  | succ n ih =>
    intro i paf ls fs rs hi hpaf hall
    obtain ⟨h1, h2, h3, h4⟩ := hall i le_rfl (by omega)
    rw [armPollFrom_forced_continue st force pr ir i paf ls fs rs (sts i) (by omega) h1 h2 h3 h4
      (by omega)]
    have hrec := ih (i + 1) (paf + 1) (sts i) fs rs (by omega) (by omega)
      (fun j hj1 hj2 => hall j (by omega) (by omega))
    rw [hrec, show i + 1 + n = i + (n + 1) from by omega]

theorem armPollFrom_forced_success_run (st : SetType) (force : Bool) (pr : Nat → List Nat)
    (ir : Nat → Except String (List Nat)) (sts : Nat → Int) (m : Nat) :
    ∀ i paf ls fs rs, i + m < 60 → paf + m < 10 →
    (∀ j, i ≤ j → j < i + m → ¬ (pr j).length < 5 ∧
        isMessageType messageTemplates (pr j) "controlSessionStatus" 1 = true ∧
        getProperty messageTemplates "controlSessionStatus" ((pr j).drop 1) "stateId" =
          .ok (.num (sts j)) ∧
        (sts j = faultStatus st ∨ sts j = activeStatus st)) →
    (¬ (pr (i + m)).length < 5) →
    isMessageType messageTemplates (pr (i + m)) "controlSessionStatus" 1 = true →
    getProperty messageTemplates "controlSessionStatus" ((pr (i + m)).drop 1) "stateId" =
      .ok (.num (sts (i + m))) →
    sts (i + m) ∈ successStatuses st →
    armPollFrom st force pr ir i true paf ls fs rs = ⟨.success, fs, rs⟩ := by
  induction m with
  | zero =>
    intro i paf ls fs rs hi hpaf hall hl ht hp hs
    exact armPollFrom_success st force pr ir i true paf ls fs rs (sts i) (by omega) hl ht hp hs
  | succ n ih =>
    intro i paf ls fs rs hi hpaf hall hl ht hp hs
    obtain ⟨h1, h2, h3, h4⟩ := hall i le_rfl (by omega)
    rw [armPollFrom_forced_continue st force pr ir i paf ls fs rs (sts i) (by omega) h1 h2 h3 h4
      (by omega)]
    have hidx : i + 1 + n = i + (n + 1) := by omega
    exact ih (i + 1) (paf + 1) (sts i) fs rs (by omega) (by omega)
      (fun j hj1 hj2 => hall j (by omega) (by omega))
      (hidx ▸ hl) (hidx ▸ ht) (hidx ▸ hp) (hidx ▸ hs)

/-- **C3.** Full-set arm polling (`armArea` with setType `'full'`): once the
polls before index `i` are skipped (short or non-`controlSessionStatus`
replies) and poll `i` parses to `stateId` `sts i`, then
(1) a `stateId` of 0x0504 or 0x0505 makes the operation succeed;
(2) a `stateId` of 0x0501 with `force = false` fails with ARM_FAULTS carrying
the zone list collected by iterating `getFaultZones` (`readArmIssues`);
(3) a `stateId` of 0x0501 or 0x0502 with `force = true` sends `setAreaForced`
exactly once and keeps polling, and (a) if the next ten polls still parse to
0x0501/0x0502 the operation fails with FORCE_ARM_FAILED after exactly those
ten further polls, while (b) a success status within the next ten polls
(after fewer than ten failing ones) still succeeds, with the single force
send. -/
theorem c3_full_set_arm_polling (pr : Nat → List Nat) (ir : Nat → Except String (List Nat))
    (i : Nat) (sts : Nat → Int) (hi : i < 60)
    (hpre : ∀ j, j < i → skippedPoll (pr j))
    (hlen : ¬ (pr i).length < 5)
    (htype : isMessageType messageTemplates (pr i) "controlSessionStatus" 1 = true)
    (hparse : getProperty messageTemplates "controlSessionStatus" ((pr i).drop 1) "stateId" =
      .ok (.num (sts i))) :
    ((sts i = 0x0504 ∨ sts i = 0x0505) → ∀ force,
      armPoll .full force pr ir = ⟨.success, 0, 0⟩) ∧
    (sts i = 0x0501 →
      armPoll .full false pr ir = ⟨.armFaults (readArmIssues ir), 0, 0⟩) ∧
    ((sts i = 0x0501 ∨ sts i = 0x0502) →
      (armPoll .full true pr ir = armPollFrom .full true pr ir (i + 1) true 0 (sts i) 1 0) ∧
      (i + 10 < 60 →
        (∀ j, i + 1 ≤ j → j ≤ i + 10 → ¬ (pr j).length < 5 ∧
            isMessageType messageTemplates (pr j) "controlSessionStatus" 1 = true ∧
            getProperty messageTemplates "controlSessionStatus" ((pr j).drop 1) "stateId" =
              .ok (.num (sts j)) ∧
            (sts j = 0x0501 ∨ sts j = 0x0502)) →
        armPoll .full true pr ir = ⟨.forceArmFailed (sts (i + 10)), 1, 0⟩) ∧
      (∀ m, m < 10 → i + 1 + m < 60 →
        (∀ j, i + 1 ≤ j → j < i + 1 + m → ¬ (pr j).length < 5 ∧
            isMessageType messageTemplates (pr j) "controlSessionStatus" 1 = true ∧
            getProperty messageTemplates "controlSessionStatus" ((pr j).drop 1) "stateId" =
              .ok (.num (sts j)) ∧
            (sts j = 0x0501 ∨ sts j = 0x0502)) →
        (¬ (pr (i + 1 + m)).length < 5) →
        isMessageType messageTemplates (pr (i + 1 + m)) "controlSessionStatus" 1 = true →
        getProperty messageTemplates "controlSessionStatus" ((pr (i + 1 + m)).drop 1) "stateId" =
          .ok (.num (sts (i + 1 + m))) →
        (sts (i + 1 + m) = 0x0504 ∨ sts (i + 1 + m) = 0x0505) →
        armPoll .full true pr ir = ⟨.success, 1, 0⟩)) := by
  have hstart : ∀ force, armPoll .full force pr ir = armPollFrom .full force pr ir i false 0 0 0 0 :=
    fun force => armPoll_skip_prefix .full force pr ir i (by omega) hpre
  refine ⟨?_, ?_, ?_⟩
  · intro hsucc force
    rw [hstart force]
    exact armPollFrom_success .full force pr ir i false 0 0 0 0 (sts i) hi hlen htype hparse
      (by rcases hsucc with h | h <;> simp [successStatuses, h])
  · intro hfault
    rw [hstart false]
    exact armPollFrom_fault_plain .full pr ir i 0 0 0 0 (sts i) hi hlen htype hparse hfault
  · intro hfail
    have hfail' : sts i = faultStatus .full ∨ sts i = activeStatus .full := hfail
    have hsend : armPoll .full true pr ir = armPollFrom .full true pr ir (i + 1) true 0 (sts i) 1 0 := by
      rw [hstart true]
      exact armPollFrom_force_send .full pr ir i 0 0 0 0 (sts i) hi hlen htype hparse hfail'
    refine ⟨hsend, ?_, ?_⟩
    · intro hbound hten
      rw [hsend]
      have := armPollFrom_forced_fail_run .full true pr ir sts 9 (i + 1) 0 (sts i) 1 0
        (by omega) (by omega)
        (fun j hj1 hj2 => by
          obtain ⟨h1, h2, h3, h4⟩ := hten j hj1 (by omega)
          exact ⟨h1, h2, h3, h4⟩)
      rw [this, show i + 1 + 9 = i + 10 from by omega]
    · intro m hm hbound hrun hl ht hp hs
      rw [hsend]
      exact armPollFrom_forced_success_run .full true pr ir sts m (i + 1) 0 (sts i) 1 0
        (by omega) (by omega)
        (fun j hj1 hj2 => hrun j hj1 hj2)
        hl ht hp (by rcases hs with h | h <;> simp [successStatuses, h])
